import Mathlib

set_option maxHeartbeats 1000000

/-!
Verification of the video-merge pipeline in `handlers/video_merge_processor.py`
of the `4merger` repository.

The embedding models the two handler functions `process_merge_video` and
`execute_smart_merge` (together with the private delivery helpers
`_upload_to_telegram` and `_upload_to_rclone`) as pure functions over an
explicit state (per-user merge queue plus a finite-map filesystem) and an
environment record that fixes the outcome of every external, fallible
operation (chat-message edits/sends, the ffmpeg subprocess, the rclone
driver).  Each run returns the final state, a trace of externally visible
events in program order, and whether an exception escaped the handler.
-/

/-- VideoMetadata (from `handlers/video_merge_manager`): immutable descriptor
of one queued video. -/
structure Video where
  msg_id : Nat
  file_name : String
  file_path : String
  duration : Nat
  size : Nat
  deriving DecidableEq

/-- Per-user merge queue: ordered videos plus the bound queue-summary
message id. -/
structure MergeQueue where
  videos : List Video
  queue_message_id : Option Nat
  deriving DecidableEq

/-- Filesystem model: association list from path to file size in bytes. -/
abbrev FS := List (String × Nat)

/-- `os.path.exists` / `os.path.getsize` combined: size of the file at `p`,
or `none` when no such file exists. -/
def fsGet : FS → String → Option Nat
  | [], _ => none
  | e :: t, p => if e.1 = p then some e.2 else fsGet t p

/-- `if os.path.exists(p): os.remove(p)` — removal that is a no-op when the
file is absent. -/
def removeIfExists : FS → String → FS
  | [], _ => []
  | e :: t, p => if e.1 = p then removeIfExists t p else e :: removeIfExists t p

/-- Create or overwrite the file at `p` with size `n`. -/
def fsSet (fs : FS) (p : String) (n : Nat) : FS :=
  (p, n) :: removeIfExists fs p

theorem fsGet_removeIfExists_self (fs : FS) (p : String) :
    fsGet (removeIfExists fs p) p = none := by
  induction fs with
  | nil => rfl
  | cons e t ih =>
    by_cases h : e.1 = p
    · simpa [removeIfExists, h] using ih
    · simpa [removeIfExists, fsGet, h] using ih

theorem fsGet_removeIfExists_none (fs : FS) (p q : String)
    (h : fsGet fs q = none) : fsGet (removeIfExists fs p) q = none := by
  induction fs with
  | nil => rfl
  | cons e t ih =>
    by_cases he : e.1 = q
    · simp [fsGet, he] at h
    · have ht : fsGet t q = none := by simpa [fsGet, he] using h
      by_cases hp : e.1 = p
      · simpa [removeIfExists, hp] using ih ht
      · simpa [removeIfExists, fsGet, he, hp] using ih ht

theorem fsGet_fsSet_self (fs : FS) (p : String) (n : Nat) :
    fsGet (fsSet fs p n) p = some n := by
  simp [fsGet, fsSet]

theorem fsGet_removeIfExists_ne (fs : FS) (p q : String) (h : q ≠ p) :
    fsGet (removeIfExists fs p) q = fsGet fs q := by
  have hpq : ¬ (p = q) := fun hh => h hh.symm
  induction fs with
  | nil => rfl
  | cons e t ih =>
    by_cases hp : e.1 = p
    · rw [removeIfExists, if_pos hp, ih, fsGet,
        if_neg (show ¬ e.1 = q by rw [hp]; exact hpq)]
    · rw [removeIfExists, if_neg hp]
      by_cases hq : e.1 = q
      · rw [fsGet, if_pos hq, fsGet, if_pos hq]
      · rw [fsGet, if_neg hq, fsGet, if_neg hq, ih]

theorem fsGet_fsSet_ne (fs : FS) (p q : String) (n : Nat) (h : q ≠ p) :
    fsGet (fsSet fs p n) q = fsGet fs q := by
  have hpq : ¬ (p = q) := fun hh => h hh.symm
  rw [fsSet, fsGet, if_neg hpq]
  exact fsGet_removeIfExists_ne fs p q h

theorem fsGet_fsSet_none (fs : FS) (p q : String) (n : Nat)
    (h : fsGet fs q = none) (hne : q ≠ p) :
    fsGet (fsSet fs p n) q = none := by
  rw [fsGet_fsSet_ne fs p q n hne]; exact h

/-- `os.path.join` restricted to the POSIX separator used by the model. -/
def joinPath (dir name : String) : String := dir ++ "/" ++ name

/-- Path of the concat manifest: `os.path.join(TEMP_FOLDER, "concat_list.txt")`. -/
def concatPath (tempFolder : String) : String :=
  joinPath tempFolder "concat_list.txt"

/-- Path of the merge output: `os.path.join(TEMP_FOLDER, "merged_video.mp4")`. -/
def outputPath (tempFolder : String) : String :=
  joinPath tempFolder "merged_video.mp4"

theorem concatPath_ne_outputPath (tf : String) :
    concatPath tf ≠ outputPath tf := by
  intro h
  have hlen : (concatPath tf).length = (outputPath tf).length := by rw [h]
  simp only [concatPath, outputPath, joinPath, String.length_append,
    Nat.add_right_cancel_iff, Nat.add_left_cancel_iff] at hlen
  exact absurd hlen (by decide)

/-- The single-quote character used by the manifest format. -/
def squote : Char := Char.ofNat 39

/-- `path.replace("\\", "/")` acting on the character list of a path. -/
def replaceBackslash (s : List Char) : List Char :=
  s.map (fun c => if c = '\\' then '/' else c)

/-- One manifest line (without its trailing newline):
`file '<absolute path with backslashes replaced by forward slashes>'`. -/
def manifestLine (abspath : String → String) (v : Video) : List Char :=
  "file ".data ++ [squote] ++ replaceBackslash (abspath v.file_path).data ++ [squote]

/-- Full manifest content: each line followed by a newline, in queue order. -/
def manifestContent (abspath : String → String) (videos : List Video) : List Char :=
  (videos.map (fun v => manifestLine abspath v ++ ['\n'])).flatten

/-- Split a character buffer into its lines: a newline terminates a line, and
a final newline does not open an empty trailing line. -/
def splitLines : List Char → List (List Char)
  | [] => []
  | c :: rest =>
    if c = '\n' then [] :: splitLines rest
    else
      match splitLines rest with
      | [] => [[c]]
      | l :: ls => (c :: l) :: ls

theorem splitLines_cons_line (l rest : List Char) (h : '\n' ∉ l) :
    splitLines (l ++ '\n' :: rest) = l :: splitLines rest := by
  induction l with
  | nil => simp [splitLines]
  | cons c t ih =>
    have hc : c ≠ '\n' := fun hh => h (by simp [hh])
    have ht : '\n' ∉ t := fun hh => h (by simp [hh])
    simp [splitLines, hc, ih ht]

theorem newline_not_mem_manifestLine (abspath : String → String) (v : Video)
    (h : '\n' ∉ (abspath v.file_path).data) :
    '\n' ∉ manifestLine abspath v := by
  intro hmem
  have hsplit : '\n' ∈ "file ".data ∨ '\n' = squote ∨
      '\n' ∈ replaceBackslash (abspath v.file_path).data := by
    simpa [manifestLine, List.mem_append, or_assoc, or_comm, or_left_comm]
      using hmem
  rcases hsplit with h1 | h2 | h3
  · exact absurd h1 (by decide)
  · exact absurd h2 (by decide)
  · have h3' : '\n' ∈ (abspath v.file_path).data.map
        (fun c => if c = '\\' then '/' else c) := h3
    rcases List.mem_map.1 h3' with ⟨c, hc, hc'⟩
    by_cases hb : c = '\\'
    · rw [hb] at hc'; exact absurd hc' (by decide)
    · rw [if_neg hb] at hc'
      exact h (hc' ▸ hc)

theorem splitLines_manifestContent (abspath : String → String)
    (videos : List Video)
    (h : ∀ v ∈ videos, '\n' ∉ (abspath v.file_path).data) :
    splitLines (manifestContent abspath videos) =
      videos.map (manifestLine abspath) := by
  induction videos with
  | nil => rfl
  | cons v t ih =>
    have hv : '\n' ∉ manifestLine abspath v :=
      newline_not_mem_manifestLine abspath v (h v (by simp))
    have ht : ∀ w ∈ t, '\n' ∉ (abspath w.file_path).data :=
      fun w hw => h w (by simp [hw])
    simp only [manifestContent, List.map_cons, List.flatten_cons, List.append_assoc,
      List.singleton_append]
    rw [splitLines_cons_line _ _ hv]
    simpa [manifestContent] using ih ht

/-- Status-surface messages the pipeline can display, in structured form.
Float formatting of sizes is abstracted by carrying the raw byte counts. -/
inductive Msg
  | preparing
  | merging (totalBytes : Nat)
  | mergeFailed
  | outputCorrupted
  | uploading
  | invalidUploadMode
  | mergeError (e : String)
  | rcloneDone (remote : String) (sizeBytes elapsed : Nat)
  | rcloneFailed (err : String)
  | rcloneImportErr
  | rcloneFailedExn (err : String)
  deriving DecidableEq

/-- Externally visible events of a run, in program order. -/
inductive Ev
  | answer (text : String)
  | editQueryMsg (ok : Bool) (m : Msg)
  | sendStatus (chat : Nat) (ok : Bool) (m : Msg)
  | editStatus (ok : Bool) (m : Msg)
  | writeFile (path : String) (content : List Char)
  | runFfmpeg (cmd : List String)
  | log (s : String)
  | sendVideo (ok : Bool) (sizeBytes dur elapsed : Nat)
  | sendDocument (ok : Bool) (sizeBytes dur elapsed : Nat)
  | deleteStatus (ok : Bool)
  | rcloneCall
  | replyText (ok : Bool) (text : String)
  | deleteMessage (ok : Bool)
  deriving DecidableEq

/-- The per-user `upload_mode` dict from `context.user_data`: both keys may be
absent. -/
structure UploadMode where
  engine : Option String
  format : Option String
  deriving DecidableEq

/-- Outcome of the black-box `rclone_driver` call. -/
inductive RcloneBehavior
  | importError
  | raised (msg : String)
  | result (success : Bool) (remote : Option String) (error : Option String)
  deriving DecidableEq

/-- Environment: outcome of every external, fallible operation touched by one
`execute_smart_merge` run.  `ffmpeg = none` models the subprocess timeout
exception; `ffmpegOutput` is the state of the output file once the subprocess
finishes (absent, or present with a size). -/
structure Env where
  editInitialOk : Bool
  fallbackSendOk : Bool
  edit5Ok : Bool
  ffmpeg : Option (Int × String)
  ffmpegOutput : Option Nat
  editFailOk : Bool
  editCorruptOk : Bool
  edit95Ok : Bool
  tgSendOk : Bool
  tgDeleteOk : Bool
  rclone : RcloneBehavior
  rcloneEditOk : Bool
  unknownEditOk : Bool
  errReportOk : Bool
  elapsed : Nat
  deriving DecidableEq

/-- Mutable state seen by the pipeline: the user's queue and the filesystem. -/
structure PState where
  queue : MergeQueue
  fs : FS
  deriving DecidableEq

/-- Result of one run: final state, event trace, and whether an exception
escaped the handler. -/
structure RunResult where
  state : PState
  trace : List Ev
  raised : Bool
  deriving DecidableEq

/-- Modelled from the spec: `MergeQueue.get_total_duration` lives in
`handlers/video_merge_manager`, which is not part of the provided sources —
the spec defines it as the sum of all per-video durations. -/
def MergeQueue.get_total_duration (q : MergeQueue) : Nat :=
  (q.videos.map (fun v => v.duration)).sum

/-- Modelled from the spec: `MergeQueue.clear_all` lives in
`handlers/video_merge_manager`, which is not part of the provided sources —
the spec defines it as deleting every referenced file from storage
(best-effort), emptying the sequence, and clearing the bound message id. -/
def MergeQueue.clear_all (q : MergeQueue) (fs : FS) : MergeQueue × FS :=
  (⟨[], none⟩, q.videos.foldl (fun a v => removeIfExists a v.file_path) fs)

/-- The exact ffmpeg invocation built by `execute_smart_merge`. -/
def mergeCmd (tf : String) : List String :=
  ["ffmpeg", "-y", "-hide_banner", "-loglevel", "error", "-f", "concat",
   "-safe", "0", "-fflags", "+genpts", "-i", concatPath tf,
   "-map", "0:v:0", "-map", "0:a?", "-c", "copy", "-movflags", "+faststart",
   outputPath tf]

/-- `_upload_to_telegram`: sends the artifact as document or video with a
caption carrying the file size, total duration and elapsed time; deletes the
status message on success; logs and re-raises on any failure (including a
failing status-message deletion). -/
def _upload_to_telegram (env : Env) (fileSize dur elapsed : Nat)
    (upload_as_document : Bool) : List Ev × Bool :=
  if upload_as_document then
    if env.tgSendOk then
      if env.tgDeleteOk then
        ([Ev.sendDocument true fileSize dur elapsed, Ev.deleteStatus true], false)
      else
        ([Ev.sendDocument true fileSize dur elapsed, Ev.deleteStatus false,
          Ev.log "Telegram upload error"], true)
    else
      ([Ev.sendDocument false fileSize dur elapsed,
        Ev.log "Telegram upload error"], true)
  else
    if env.tgSendOk then
      if env.tgDeleteOk then
        ([Ev.sendVideo true fileSize dur elapsed, Ev.deleteStatus true], false)
      else
        ([Ev.sendVideo true fileSize dur elapsed, Ev.deleteStatus false,
          Ev.log "Telegram upload error"], true)
    else
      ([Ev.sendVideo false fileSize dur elapsed,
        Ev.log "Telegram upload error"], true)

/-- `_upload_to_rclone`: dispatches to the rclone driver and absorbs every
failure (unsuccessful result, import error, any other exception) after
attempting a terminal status edit; never re-raises. -/
def _upload_to_rclone (env : Env) (fileSize elapsed : Nat) : List Ev × Bool :=
  match env.rclone with
  | RcloneBehavior.importError =>
      ([Ev.log "Rclone module import error",
        Ev.editStatus env.rcloneEditOk Msg.rcloneImportErr], false)
  | RcloneBehavior.raised m =>
      ([Ev.rcloneCall, Ev.log m,
        Ev.editStatus env.rcloneEditOk (Msg.rcloneFailedExn m)], false)
  | RcloneBehavior.result success remote error =>
      if success then
        ([Ev.rcloneCall,
          Ev.editStatus env.rcloneEditOk
            (Msg.rcloneDone (remote.getD "Unknown") fileSize elapsed),
          Ev.log "Rclone upload successful"], false)
      else
        ([Ev.rcloneCall, Ev.log (error.getD "Unknown error"),
          Ev.editStatus env.rcloneEditOk
            (Msg.rcloneFailed (error.getD "Unknown error"))], false)

/-- The `except Exception` block of `execute_smart_merge`: log, best-effort
error report (edit when a status message exists, fresh send otherwise),
best-effort removal of the manifest and output files.  The queue is not
touched here. -/
def mergeExceptHandler (env : Env) (tf : String) (user : Nat)
    (hasStatus hasConcat hasOutput : Bool) (emsg : String)
    (st : PState) (tr : List Ev) : RunResult :=
  ⟨⟨st.queue,
    (let fs1 := if hasConcat then removeIfExists st.fs (concatPath tf) else st.fs;
     if hasOutput then removeIfExists fs1 (outputPath tf) else fs1)⟩,
   tr ++ [Ev.log emsg,
          if hasStatus then Ev.editStatus env.errReportOk (Msg.mergeError emsg)
          else Ev.sendStatus user env.errReportOk (Msg.mergeError emsg)],
   false⟩

/-- Output-validation failure exit: corrupted-output message, then removal of
the output and the manifest.  The queue is not touched. -/
def corruptedExit (env : Env) (tf : String) (queue : MergeQueue) (fs : FS)
    (tr : List Ev) : RunResult :=
  ⟨⟨queue, removeIfExists (removeIfExists fs (outputPath tf)) (concatPath tf)⟩,
   tr ++ [Ev.log "Output file missing or too small",
          Ev.editStatus env.editCorruptOk Msg.outputCorrupted],
   false⟩

/-- The unconditional cleanup block reached after delivery dispatch returns
normally: clear the queue (deleting its source files), then remove the output
and the manifest. -/
def finishCleanup (tf : String) (st : PState) (tr : List Ev) : RunResult :=
  ⟨⟨(MergeQueue.clear_all st.queue st.fs).1,
    removeIfExists
      (removeIfExists (MergeQueue.clear_all st.queue st.fs).2 (outputPath tf))
      (concatPath tf)⟩,
   tr, false⟩

/-- Delivery dispatch on `upload_mode.get("engine", "telegram")`. -/
def mergeDeliver (env : Env) (tf : String) (user : Nat) (um : UploadMode)
    (st : PState) (fileSize : Nat) (tr : List Ev) : RunResult :=
  if um.engine.getD "telegram" = "telegram" then
    (let r := _upload_to_telegram env fileSize
        (MergeQueue.get_total_duration st.queue) env.elapsed
        (um.format = some "document");
     if r.2 then
       mergeExceptHandler env tf user true true true "Telegram upload error"
         st (tr ++ r.1)
     else finishCleanup tf st (tr ++ r.1))
  else if um.engine.getD "telegram" = "rclone" then
    finishCleanup tf st (tr ++ (_upload_to_rclone env fileSize env.elapsed).1)
  else
    if env.unknownEditOk then
      finishCleanup tf st
        (tr ++ [Ev.log "Unknown upload engine",
                Ev.editStatus true Msg.invalidUploadMode])
    else
      mergeExceptHandler env tf user true true true "status edit failed" st
        (tr ++ [Ev.log "Unknown upload engine",
                Ev.editStatus false Msg.invalidUploadMode])

/-- Total size of the queued source files, as read by `os.path.getsize`. -/
def totalSizeBytes (fs : FS) (videos : List Video) : Nat :=
  (videos.map (fun v => (fsGet fs v.file_path).getD 0)).sum

/-- Effect of the ffmpeg subprocess on the filesystem: the output file is
created with the size the environment prescribes, or not created at all. -/
def ffmpegFs (env : Env) (tf : String) (fs : FS) : FS :=
  match env.ffmpegOutput with
  | some s => fsSet fs (outputPath tf) s
  | none => fs

/-- Merge invocation, output validation and delivery (lines 169-277 of
`execute_smart_merge`). -/
def mergeStage2 (env : Env) (tf : String) (user : Nat) (um : UploadMode)
    (st : PState) (tr : List Ev) : RunResult :=
  let fs2 := ffmpegFs env tf st.fs
  let tr2 := tr ++ [Ev.runFfmpeg (mergeCmd tf)]
  match env.ffmpeg with
  | none =>
    mergeExceptHandler env tf user true true true "ffmpeg timeout"
      ⟨st.queue, fs2⟩ tr2
  | some (rc, stderr) =>
    if rc ≠ 0 then
      ⟨⟨st.queue, removeIfExists (removeIfExists fs2 (concatPath tf)) (outputPath tf)⟩,
       tr2 ++ [Ev.log "FFmpeg merge failed", Ev.log stderr,
               Ev.editStatus env.editFailOk Msg.mergeFailed],
       false⟩
    else
      match fsGet fs2 (outputPath tf) with
      | none => corruptedExit env tf st.queue fs2 tr2
      | some s =>
        if s < 1024 then corruptedExit env tf st.queue fs2 tr2
        else
          mergeDeliver env tf user um ⟨st.queue, fs2⟩ s
            (tr2 ++ [Ev.editStatus env.edit95Ok Msg.uploading])

/-- Whether every queued source file still exists when the
`os.path.getsize` loop runs (after the manifest has been written). -/
def sourcesReadable (tf : String) (abspath : String → String)
    (st : PState) : Bool :=
  st.queue.videos.all (fun v =>
    (fsGet (fsSet st.fs (concatPath tf)
      (manifestContent abspath st.queue.videos).length) v.file_path).isSome)

/-- Manifest generation and source-size reads (lines 146-167).  A source file
that vanished before the `os.path.getsize` loop raises, reaching the generic
handler with the manifest already written and `output_file` still unassigned. -/
def mergeStage1 (env : Env) (tf : String) (abspath : String → String)
    (user : Nat) (um : UploadMode) (st : PState) (tr0 : List Ev) : RunResult :=
  let content := manifestContent abspath st.queue.videos
  let fs1 := fsSet st.fs (concatPath tf) content.length
  let tr1 := tr0 ++ [Ev.writeFile (concatPath tf) content]
  if sourcesReadable tf abspath st then
    mergeStage2 env tf user um ⟨st.queue, fs1⟩
      (tr1 ++ [Ev.editStatus env.edit5Ok
                 (Msg.merging (totalSizeBytes fs1 st.queue.videos))])
  else
    mergeExceptHandler env tf user true true false "source file size read failed"
      ⟨st.queue, fs1⟩ tr1

/-- Status-message creation (lines 127-142): edit the triggering message, fall
back to sending a fresh message, and raise into the generic handler (with no
status message bound) when both fail. -/
def mergePipeline (env : Env) (tf : String) (abspath : String → String)
    (user : Nat) (um : UploadMode) (st : PState) : RunResult :=
  if env.editInitialOk then
    mergeStage1 env tf abspath user um st [Ev.editQueryMsg true Msg.preparing]
  else if env.fallbackSendOk then
    mergeStage1 env tf abspath user um st
      [Ev.editQueryMsg false Msg.preparing, Ev.sendStatus user true Msg.preparing]
  else
    mergeExceptHandler env tf user false false false "status message creation failed"
      st [Ev.editQueryMsg false Msg.preparing, Ev.sendStatus user false Msg.preparing]

/-- `execute_smart_merge`: precondition gate (lines 104-118) followed by the
pipeline. -/
def execute_smart_merge (env : Env) (tf : String) (abspath : String → String)
    (user : Nat) (upload_mode : Option UploadMode) (st : PState) : RunResult :=
  match upload_mode with
  | none => ⟨st, [Ev.answer "❌ Please select Upload Mode first!"], false⟩
  | some um =>
    if um.engine = some "telegram" ∧ um.format = none then
      ⟨st, [Ev.answer "❌ Please select format (Video/Document)!"], false⟩
    else if st.queue.videos.length < 2 then
      ⟨st, [Ev.answer "Need at least 2 videos!"], false⟩
    else
      mergePipeline env tf abspath user um st

/-- The precondition gate of `execute_smart_merge` as a boolean. -/
def passesPreconds (upload_mode : Option UploadMode) (st : PState) : Bool :=
  match upload_mode with
  | none => false
  | some um =>
    ¬ (um.engine = some "telegram" ∧ um.format = none) ∧
      ¬ st.queue.videos.length < 2

/-- Environment for one `process_merge_video` run: probe outcome and the fate
of each chat operation it performs. -/
structure AddEnv where
  probeOk : Bool
  probeDuration : Nat
  probeSize : Nat
  msgId : Nat
  newMsgId : Nat
  replyNotFoundOk : Bool
  replyProbeErrOk : Bool
  deleteOldOk : Bool
  replyQueueOk : Bool
  replyFullOk : Bool
  errReplyOk : Bool
  deriving DecidableEq

/-- Result of one `process_merge_video` run. -/
structure AddResult where
  queue : MergeQueue
  fs : FS
  operation : Option String
  trace : List Ev
  raised : Bool
  deriving DecidableEq

/-- The `except Exception` block of `process_merge_video`: log, reply with the
error text (itself fallible and unguarded — when it raises, the exception
escapes with the operation flag untouched), else reset the flag. -/
def addExceptHandler (env : AddEnv) (q : MergeQueue) (fs : FS)
    (op0 : Option String) (tr : List Ev) : AddResult :=
  if env.errReplyOk then
    ⟨q, fs, none, tr ++ [Ev.log "Error processing merge video",
                         Ev.replyText true "❌ Error"], false⟩
  else
    ⟨q, fs, op0, tr ++ [Ev.log "Error processing merge video",
                        Ev.replyText false "❌ Error"], true⟩

/-- `os.path.basename` for POSIX-style paths. -/
def basename (p : String) : String := (p.splitOn "/").getLastD p

/-- Queue insertion and queue-summary messaging (lines 50-91 of
`process_merge_video`).  `add_video` appends iff the queue holds fewer than
20 videos (modelled from the spec: `MergeQueue.add_video` lives in
`handlers/video_merge_manager`, which is not part of the provided sources). -/
def addToQueue (env : AddEnv) (filepath : String) (q : MergeQueue) (fs : FS)
    (op0 : Option String) : AddResult :=
  if q.videos.length < 20 then
    (let md : Video := ⟨env.msgId, basename filepath, filepath,
        env.probeDuration, env.probeSize⟩;
     let q1 : MergeQueue := ⟨q.videos ++ [md], q.queue_message_id⟩;
     if q1.videos.length = 1 then
       (if env.replyQueueOk then
          ⟨⟨q1.videos, some env.newMsgId⟩, fs, none,
           [Ev.replyText true "✅ Video added!"], false⟩
        else
          addExceptHandler env q1 fs op0 [Ev.replyText false "✅ Video added!"])
     else
       (let dtr : List Ev := match q1.queue_message_id with
          | some _ => [Ev.deleteMessage env.deleteOldOk]
          | none => [];
        if env.replyQueueOk then
          ⟨⟨q1.videos, some env.newMsgId⟩, fs, none,
           dtr ++ [Ev.replyText true "✅ Video added!"], false⟩
        else
          addExceptHandler env q1 fs op0
            (dtr ++ [Ev.replyText false "✅ Video added!"])))
  else
    (if env.replyFullOk then
       ⟨q, fs, none, [Ev.replyText true "❌ Cannot add video to queue, Max 20 videos per merge"], false⟩
     else
       addExceptHandler env q fs op0
         [Ev.replyText false "❌ Cannot add video to queue, Max 20 videos per merge"])

/-- `process_merge_video`: existence check, metadata probe, queue insertion,
with the per-session operation flag reset at the end of every branch. -/
def process_merge_video (env : AddEnv) (filepath : String) (q : MergeQueue)
    (fs : FS) (op0 : Option String) : AddResult :=
  if (fsGet fs filepath).isNone then
    (if env.replyNotFoundOk then
       ⟨q, fs, none, [Ev.replyText true "❌ File not found"], false⟩
     else
       addExceptHandler env q fs op0 [Ev.replyText false "❌ File not found"])
  else if env.probeOk = false then
    (if env.replyProbeErrOk then
       ⟨q, removeIfExists fs filepath, none,
        [Ev.log "Error extracting metadata",
         Ev.replyText true "❌ Cannot read video file"], false⟩
     else
       addExceptHandler env q fs op0
         [Ev.log "Error extracting metadata",
          Ev.replyText false "❌ Cannot read video file"])
  else
    addToQueue env filepath q fs op0

/-- Events that deliver the artifact to its destination. -/
def isDeliveryEv : Ev → Bool
  | Ev.sendVideo _ _ _ _ => true
  | Ev.sendDocument _ _ _ _ => true
  | Ev.rcloneCall => true
  | _ => false

/-- Events that invoke the external merge capability. -/
def isFfmpegEv : Ev → Bool
  | Ev.runFfmpeg _ => true
  | _ => false

/-- Events that write a file. -/
def isWriteEv : Ev → Bool
  | Ev.writeFile _ _ => true
  | _ => false

/-- Events that display the validation/upload stage marker. -/
def isUploadingEv : Ev → Bool
  | Ev.editStatus _ Msg.uploading => true
  | _ => false

/-- The coarse progress percentage a status message displays, if any. -/
def progressOfMsg : Msg → Option Nat
  | Msg.preparing => some 0
  | Msg.merging _ => some 5
  | Msg.uploading => some 95
  | _ => none

/-- The progress marker an event successfully displays, if any. -/
def pmOfEv : Ev → Option Nat
  | Ev.editQueryMsg true m => progressOfMsg m
  | Ev.sendStatus _ true m => progressOfMsg m
  | Ev.editStatus true m => progressOfMsg m
  | _ => none

/-- Progress markers actually displayed on the status surface: percentages of
status texts whose create/update call succeeded. -/
def progressMarkers (tr : List Ev) : List Nat :=
  tr.filterMap pmOfEv

/-- Both temporary artifacts (manifest and output) are absent from the final
filesystem. -/
def TempClean (r : RunResult) (tf : String) : Prop :=
  fsGet r.state.fs (concatPath tf) = none ∧
    fsGet r.state.fs (outputPath tf) = none

/-- Concrete queue entry used by witnesses: first video. -/
def vidA : Video := ⟨1, "a.mp4", "tmp/a.mp4", 10, 2000000⟩

/-- Concrete queue entry used by witnesses: second video. -/
def vidB : Video := ⟨2, "b.mp4", "tmp/b.mp4", 15, 3000000⟩

/-- Filesystem holding the two source files. -/
def fs0 : FS := [("tmp/a.mp4", 2000000), ("tmp/b.mp4", 3000000)]

/-- Two-video queue state entering the pipeline. -/
def st0 : PState := ⟨⟨[vidA, vidB], some 5⟩, fs0⟩

/-- Upload mode: chat-native engine, playable-video format. -/
def umTgVideo : UploadMode := ⟨some "telegram", some "video"⟩

/-- Upload mode: chat-native engine, document format. -/
def umTgDoc : UploadMode := ⟨some "telegram", some "document"⟩

/-- Upload mode: remote-storage engine. -/
def umRclone : UploadMode := ⟨some "rclone", none⟩

/-- Environment of a fully successful run: every external call succeeds,
ffmpeg exits 0 producing a 5000000-byte output. -/
def envOk : Env :=
  ⟨true, true, true, some (0, ""), some 5000000, true, true, true, true, true,
   RcloneBehavior.result true (some "gdrive") none, true, true, true, 42⟩

/-- Environment where the merge invocation exits 1 leaving a partial output. -/
def envMergeFail : Env :=
  { envOk with ffmpeg := some (1, "stderr detail"), ffmpegOutput := some 300 }

/-- Environment producing an output of exactly 1024 bytes. -/
def env1024 : Env := { envOk with ffmpegOutput := some 1024 }

theorem mem_trace_mergeExceptHandler (env : Env) (tf : String) (user : Nat)
    (a b c : Bool) (s : String) (st : PState) (tr : List Ev) (e : Ev)
    (h : e ∈ tr) :
    e ∈ (mergeExceptHandler env tf user a b c s st tr).trace := by
  simp only [mergeExceptHandler, List.mem_append]
  exact Or.inl h

theorem mem_trace_corruptedExit (env : Env) (tf : String) (q : MergeQueue)
    (fs : FS) (tr : List Ev) (e : Ev) (h : e ∈ tr) :
    e ∈ (corruptedExit env tf q fs tr).trace := by
  simp only [corruptedExit, List.mem_append]
  exact Or.inl h

theorem mem_trace_finishCleanup (tf : String) (st : PState) (tr : List Ev)
    (e : Ev) (h : e ∈ tr) : e ∈ (finishCleanup tf st tr).trace := h

theorem mem_trace_mergeDeliver (env : Env) (tf : String) (user : Nat)
    (um : UploadMode) (st : PState) (fsz : Nat) (tr : List Ev) (e : Ev)
    (h : e ∈ tr) :
    e ∈ (mergeDeliver env tf user um st fsz tr).trace := by
  simp only [mergeDeliver]
  split
  · split
    · exact mem_trace_mergeExceptHandler _ _ _ _ _ _ _ _ _ _
        (List.mem_append_left _ h)
    · exact mem_trace_finishCleanup _ _ _ _ (List.mem_append_left _ h)
  · split
    · exact mem_trace_finishCleanup _ _ _ _ (List.mem_append_left _ h)
    · split
      · exact mem_trace_finishCleanup _ _ _ _ (List.mem_append_left _ h)
      · exact mem_trace_mergeExceptHandler _ _ _ _ _ _ _ _ _ _
          (List.mem_append_left _ h)

theorem mem_trace_mergeStage2 (env : Env) (tf : String) (user : Nat)
    (um : UploadMode) (st : PState) (tr : List Ev) (e : Ev) (h : e ∈ tr) :
    e ∈ (mergeStage2 env tf user um st tr).trace := by
  simp only [mergeStage2]
  split
  · exact mem_trace_mergeExceptHandler _ _ _ _ _ _ _ _ _ _
      (List.mem_append_left _ h)
  · split
    · simp [h]
    · split
      · exact mem_trace_corruptedExit _ _ _ _ _ _
          (List.mem_append_left _ h)
      · split
        · exact mem_trace_corruptedExit _ _ _ _ _ _
            (List.mem_append_left _ h)
        · exact mem_trace_mergeDeliver _ _ _ _ _ _ _ _
            (List.mem_append_left _ (List.mem_append_left _ h))

theorem writeFile_mem_mergeStage1 (env : Env) (tf : String)
    (abspath : String → String) (user : Nat) (um : UploadMode) (st : PState)
    (tr0 : List Ev) :
    Ev.writeFile (concatPath tf) (manifestContent abspath st.queue.videos) ∈
      (mergeStage1 env tf abspath user um st tr0).trace := by
  simp only [mergeStage1]
  split
  · exact mem_trace_mergeStage2 _ _ _ _ _ _ _
      (List.mem_append_left _ (List.mem_append_right _ (by simp)))
  · exact mem_trace_mergeExceptHandler _ _ _ _ _ _ _ _ _ _
      (List.mem_append_right _ (by simp))

theorem passesPreconds_some_iff (um : UploadMode) (st : PState) :
    passesPreconds (some um) st = true ↔
      ¬ (um.engine = some "telegram" ∧ um.format = none) ∧
        ¬ st.queue.videos.length < 2 := by
  simp only [passesPreconds]
  constructor
  · intro hh
    exact of_decide_eq_true hh
  · intro hh
    exact decide_eq_true hh

/-- C2: when the merge trigger fires with upload mode unset, with the
chat-native engine but no format, or with fewer than 2 queued videos, the
handler returns a user-facing rejection alert without invoking ffmpeg,
writing any file, or mutating the queue, the filesystem, or anything else:
the run result is the unchanged state with a single answer event. -/
theorem merge_preconditions_reject_without_state_change
    (env : Env) (tf : String) (abspath : String → String) (user : Nat)
    (upload_mode : Option UploadMode) (st : PState)
    (h : passesPreconds upload_mode st = false) :
    ∃ m, execute_smart_merge env tf abspath user upload_mode st =
      ⟨st, [Ev.answer m], false⟩ := by
  cases upload_mode with
  | none => exact ⟨_, rfl⟩
  | some um =>
    by_cases h1 : um.engine = some "telegram" ∧ um.format = none
    · exact ⟨"❌ Please select format (Video/Document)!",
        by simp [execute_smart_merge, h1]⟩
    · by_cases h2 : st.queue.videos.length < 2
      · exact ⟨"Need at least 2 videos!",
          by simp [execute_smart_merge, h1, h2]⟩
      · exact absurd h (by simp [passesPreconds, h1, h2])

/-- Witness for C2: missing upload mode on the two-video queue. -/
theorem merge_preconditions_reject_witness :
    passesPreconds none st0 = false ∧
      ∃ m, execute_smart_merge envOk "tmp" id 7 none st0 =
        ⟨st0, [Ev.answer m], false⟩ :=
  ⟨by decide,
   merge_preconditions_reject_without_state_change envOk "tmp" id 7 none st0
     (by decide)⟩

/-- C3: every run that passes the precondition gate and binds a status
message writes the manifest at the fixed concat path, and that manifest has
exactly one line per queued video, in queue order, of the exact form
`file '<path>'` with backslashes replaced by forward slashes — provided the
absolute paths contain no newline character. -/
theorem manifest_lines_exact (env : Env) (tf : String)
    (abspath : String → String) (user : Nat) (um : UploadMode) (st : PState)
    (hpre : passesPreconds (some um) st = true)
    (hcr : env.editInitialOk = true ∨ env.fallbackSendOk = true)
    (hnl : ∀ v ∈ st.queue.videos, '\n' ∉ (abspath v.file_path).data) :
    Ev.writeFile (concatPath tf) (manifestContent abspath st.queue.videos) ∈
      (execute_smart_merge env tf abspath user (some um) st).trace ∧
    splitLines (manifestContent abspath st.queue.videos) =
      st.queue.videos.map (manifestLine abspath) ∧
    (st.queue.videos.map (manifestLine abspath)).length =
      st.queue.videos.length := by
  obtain ⟨h1, h2⟩ := (passesPreconds_some_iff um st).mp hpre
  refine ⟨?_, splitLines_manifestContent abspath st.queue.videos hnl,
    List.length_map _ _⟩
  simp only [execute_smart_merge, if_neg h1, if_neg h2]
  by_cases heo : env.editInitialOk
  · simp only [mergePipeline, heo, if_true]
    exact writeFile_mem_mergeStage1 _ _ _ _ _ _ _
  · have hfb : env.fallbackSendOk = true := hcr.resolve_left (by simpa using heo)
    simp only [mergePipeline, heo, hfb, if_true, if_false, Bool.false_eq_true]
    exact writeFile_mem_mergeStage1 _ _ _ _ _ _ _

/-- Witness for C3: the two-video fixture with identity absolute paths. -/
theorem manifest_lines_exact_witness :
    (passesPreconds (some umTgVideo) st0 = true ∧
      (∀ v ∈ st0.queue.videos, '\n' ∉ (id v.file_path).data)) ∧
    (Ev.writeFile (concatPath "tmp") (manifestContent id st0.queue.videos) ∈
      (execute_smart_merge envOk "tmp" id 7 (some umTgVideo) st0).trace ∧
    splitLines (manifestContent id st0.queue.videos) =
      st0.queue.videos.map (manifestLine id) ∧
    (st0.queue.videos.map (manifestLine id)).length =
      st0.queue.videos.length) :=
  ⟨⟨by decide, by decide⟩,
   manifest_lines_exact envOk "tmp" id 7 umTgVideo st0 (by decide)
     (Or.inl rfl) (by decide)⟩

/-- Events that write a file or invoke ffmpeg. -/
def isArtifactEv (e : Ev) : Bool := isWriteEv e || isFfmpegEv e

theorem artifact_trace_append (tr l : List Ev) (e : Ev)
    (hl : ∀ x ∈ l, isArtifactEv x = false)
    (h : e ∈ tr ++ l) (hp : isArtifactEv e = true) : e ∈ tr := by
  rcases List.mem_append.1 h with h1 | h1
  · exact h1
  · rw [hl e h1] at hp
    exact absurd hp (by simp)

theorem artifact_trace_mergeExceptHandler (env : Env) (tf : String) (user : Nat)
    (a b c2 : Bool) (s : String) (st : PState) (tr : List Ev) (e : Ev)
    (h : e ∈ (mergeExceptHandler env tf user a b c2 s st tr).trace)
    (hp : isArtifactEv e = true) : e ∈ tr := by
  refine artifact_trace_append tr _ e ?_ h hp
  intro x hx
  simp only [List.mem_cons, List.mem_singleton, List.not_mem_nil, or_false] at hx
  rcases hx with h1 | h1
  · subst h1; rfl
  · subst h1; split <;> rfl

theorem artifact_trace_corruptedExit (env : Env) (tf : String) (q : MergeQueue)
    (fs : FS) (tr : List Ev) (e : Ev)
    (h : e ∈ (corruptedExit env tf q fs tr).trace)
    (hp : isArtifactEv e = true) : e ∈ tr := by
  refine artifact_trace_append tr _ e ?_ h hp
  intro x hx
  simp only [List.mem_cons, List.mem_singleton, List.not_mem_nil, or_false] at hx
  rcases hx with h1 | h1 <;> (subst h1; rfl)

theorem finishCleanup_trace (tf : String) (st : PState) (tr : List Ev) :
    (finishCleanup tf st tr).trace = tr := rfl

theorem artifact_trace_upload_tg (env : Env) (a b c2 : Nat) (d : Bool) (e : Ev)
    (h : e ∈ (_upload_to_telegram env a b c2 d).1) :
    isArtifactEv e = false := by
  revert h
  simp only [_upload_to_telegram]
  split <;> split <;> (try split) <;> (intro h; fin_cases h <;> rfl)

theorem artifact_trace_upload_rclone (env : Env) (a b : Nat) (e : Ev)
    (h : e ∈ (_upload_to_rclone env a b).1) :
    isArtifactEv e = false := by
  revert h
  simp only [_upload_to_rclone]
  split <;> (try split) <;> (intro h; fin_cases h <;> rfl)

theorem artifact_trace_mergeDeliver (env : Env) (tf : String) (user : Nat)
    (um : UploadMode) (st : PState) (fsz : Nat) (tr : List Ev) (e : Ev)
    (h : e ∈ (mergeDeliver env tf user um st fsz tr).trace)
    (hp : isArtifactEv e = true) : e ∈ tr := by
  simp only [mergeDeliver] at h
  split at h
  · split at h
    · have h2 := artifact_trace_mergeExceptHandler _ _ _ _ _ _ _ _ _ _ h hp
      exact artifact_trace_append tr _ e
        (fun x hx => artifact_trace_upload_tg _ _ _ _ _ _ hx) h2 hp
    · rw [finishCleanup_trace] at h
      exact artifact_trace_append tr _ e
        (fun x hx => artifact_trace_upload_tg _ _ _ _ _ _ hx) h hp
  · split at h
    · rw [finishCleanup_trace] at h
      exact artifact_trace_append tr _ e
        (fun x hx => artifact_trace_upload_rclone _ _ _ _ hx) h hp
    · split at h
      · rw [finishCleanup_trace] at h
        refine artifact_trace_append tr _ e ?_ h hp
        intro x hx
        fin_cases hx <;> rfl
      · have h2 := artifact_trace_mergeExceptHandler _ _ _ _ _ _ _ _ _ _ h hp
        refine artifact_trace_append tr _ e ?_ h2 hp
        intro x hx
        fin_cases hx <;> rfl

theorem artifact_trace_mergeStage2 (env : Env) (tf : String) (user : Nat)
    (um : UploadMode) (st : PState) (tr : List Ev) (e : Ev)
    (h : e ∈ (mergeStage2 env tf user um st tr).trace)
    (hp : isArtifactEv e = true) :
    e ∈ tr ∨ e = Ev.runFfmpeg (mergeCmd tf) := by
  have peel : e ∈ tr ++ [Ev.runFfmpeg (mergeCmd tf)] →
      e ∈ tr ∨ e = Ev.runFfmpeg (mergeCmd tf) := by
    intro hh
    rcases List.mem_append.1 hh with h3 | h3
    · exact Or.inl h3
    · exact Or.inr (by simpa using h3)
  simp only [mergeStage2] at h
  split at h
  · exact peel (artifact_trace_mergeExceptHandler _ _ _ _ _ _ _ _ _ _ h hp)
  · split at h
    · exact peel (artifact_trace_append _ _ e
        (fun x hx => by fin_cases hx <;> rfl) h hp)
    · split at h
      · exact peel (artifact_trace_corruptedExit _ _ _ _ _ _ h hp)
      · split at h
        · exact peel (artifact_trace_corruptedExit _ _ _ _ _ _ h hp)
        · exact peel (artifact_trace_append _ _ e
            (fun x hx => by fin_cases hx <;> rfl)
            (artifact_trace_mergeDeliver _ _ _ _ _ _ _ _ h hp) hp)

theorem artifact_trace_mergeStage1 (env : Env) (tf : String)
    (abspath : String → String) (user : Nat) (um : UploadMode) (st : PState)
    (tr0 : List Ev) (e : Ev)
    (h : e ∈ (mergeStage1 env tf abspath user um st tr0).trace)
    (hp : isArtifactEv e = true) :
    e ∈ tr0 ∨ e = Ev.runFfmpeg (mergeCmd tf) ∨
      e = Ev.writeFile (concatPath tf) (manifestContent abspath st.queue.videos) := by
  have peel : e ∈ tr0 ++ [Ev.writeFile (concatPath tf)
      (manifestContent abspath st.queue.videos)] →
      e ∈ tr0 ∨ e = Ev.writeFile (concatPath tf)
        (manifestContent abspath st.queue.videos) := by
    intro hh
    rcases List.mem_append.1 hh with h3 | h3
    · exact Or.inl h3
    · exact Or.inr (by simpa using h3)
  simp only [mergeStage1] at h
  split at h
  · rcases artifact_trace_mergeStage2 _ _ _ _ _ _ _ h hp with h2 | h2
    · rcases peel (artifact_trace_append _ _ e
        (fun x hx => by fin_cases hx <;> rfl) h2 hp) with h3 | h3
      · exact Or.inl h3
      · exact Or.inr (Or.inr h3)
    · exact Or.inr (Or.inl h2)
  · rcases peel (artifact_trace_mergeExceptHandler _ _ _ _ _ _ _ _ _ _ h hp)
      with h3 | h3
    · exact Or.inl h3
    · exact Or.inr (Or.inr h3)

theorem artifact_trace_execute (env : Env) (tf : String)
    (abspath : String → String) (user : Nat) (upload_mode : Option UploadMode)
    (st : PState) (e : Ev)
    (h : e ∈ (execute_smart_merge env tf abspath user upload_mode st).trace)
    (hp : isArtifactEv e = true) :
    e = Ev.runFfmpeg (mergeCmd tf) ∨
      e = Ev.writeFile (concatPath tf)
        (manifestContent abspath st.queue.videos) := by
  cases upload_mode with
  | none =>
    exact absurd hp
      (by simp [execute_smart_merge] at h; subst h; simp [isArtifactEv, isWriteEv, isFfmpegEv])
  | some um =>
    simp only [execute_smart_merge] at h
    split at h
    · exact absurd hp (by simp at h; subst h; simp [isArtifactEv, isWriteEv, isFfmpegEv])
    · split at h
      · exact absurd hp (by simp at h; subst h; simp [isArtifactEv, isWriteEv, isFfmpegEv])
      · simp only [mergePipeline] at h
        split at h
        · rcases artifact_trace_mergeStage1 _ _ _ _ _ _ _ _ h hp with h2 | h2
          · exact absurd hp (by fin_cases h2 <;> simp [isArtifactEv, isWriteEv, isFfmpegEv])
          · exact h2
        · split at h
          · rcases artifact_trace_mergeStage1 _ _ _ _ _ _ _ _ h hp with h2 | h2
            · exact absurd hp (by fin_cases h2 <;> simp [isArtifactEv, isWriteEv, isFfmpegEv])
            · exact h2
          · have h2 := artifact_trace_mergeExceptHandler _ _ _ _ _ _ _ _ _ _ h hp
            exact absurd hp (by fin_cases h2 <;> simp [isArtifactEv, isWriteEv, isFfmpegEv])

/-- Second fixture state: different user order and bound message, used to
compare two distinct executions. -/
def st1 : PState := ⟨⟨[vidB, vidA], none⟩, fs0⟩

/-- C8: the manifest path and the output path are fixed constants inside the
one shared temp folder — every file written by a run is written at
`concatPath tf`, every ffmpeg invocation targets `outputPath tf` as its final
argument, and any two executions (any users, queues, modes, environments)
write to the same two paths. -/
theorem temp_paths_fixed (tf : String) (env env' : Env)
    (abspath abspath' : String → String) (user user' : Nat)
    (um um' : Option UploadMode) (st st' : PState) :
    (∀ p c, Ev.writeFile p c ∈
        (execute_smart_merge env tf abspath user um st).trace →
        p = concatPath tf) ∧
    (∀ cmd, Ev.runFfmpeg cmd ∈
        (execute_smart_merge env tf abspath user um st).trace →
        cmd = mergeCmd tf ∧ cmd.getLast? = some (outputPath tf)) ∧
    (∀ p c p' c',
        Ev.writeFile p c ∈
          (execute_smart_merge env tf abspath user um st).trace →
        Ev.writeFile p' c' ∈
          (execute_smart_merge env' tf abspath' user' um' st').trace →
        p = p') := by
  have main : ∀ (env2 : Env) (ab2 : String → String) (u2 : Nat)
      (um2 : Option UploadMode) (st2 : PState) (p : String) (c : List Char),
      Ev.writeFile p c ∈ (execute_smart_merge env2 tf ab2 u2 um2 st2).trace →
      p = concatPath tf := by
    intro env2 ab2 u2 um2 st2 p c h
    rcases artifact_trace_execute env2 tf ab2 u2 um2 st2 _ h rfl with h2 | h2
    · exact absurd h2 (by simp)
    · obtain ⟨h3, -⟩ : p = concatPath tf ∧
          c = manifestContent ab2 st2.queue.videos := by simpa using h2
      exact h3
  refine ⟨fun p c h => main env abspath user um st p c h, ?_, ?_⟩
  · intro cmd h
    rcases artifact_trace_execute env tf abspath user um st _ h rfl with h2 | h2
    · obtain h3 : cmd = mergeCmd tf := by simpa using h2
      exact ⟨h3, by rw [h3]; rfl⟩
    · exact absurd h2 (by simp)
  · intro p c p' c' h h'
    rw [main env abspath user um st p c h,
      main env' abspath' user' um' st' p' c' h']

/-- Witness for C8: two concrete runs by different users with differently
ordered queues both write the manifest at the same fixed path. -/
theorem temp_paths_fixed_witness :
    (Ev.writeFile (concatPath "tmp") (manifestContent id st0.queue.videos) ∈
        (execute_smart_merge envOk "tmp" id 7 (some umTgVideo) st0).trace ∧
      Ev.writeFile (concatPath "tmp") (manifestContent id st1.queue.videos) ∈
        (execute_smart_merge envOk "tmp" id 9 (some umRclone) st1).trace) ∧
    concatPath "tmp" = concatPath "tmp" :=
  ⟨⟨by decide, by decide⟩,
   (temp_paths_fixed "tmp" envOk envOk id id 7 9 (some umTgVideo)
       (some umRclone) st0 st1).2.2
     (concatPath "tmp") (manifestContent id st0.queue.videos)
     (concatPath "tmp") (manifestContent id st1.queue.videos)
     (by decide) (by decide)⟩

theorem process_raised_or_reset (env : AddEnv) (filepath : String)
    (q : MergeQueue) (fs : FS) (op0 : Option String) :
    (process_merge_video env filepath q fs op0).raised = true ∨
      (process_merge_video env filepath q fs op0).operation = none := by
  unfold process_merge_video addToQueue addExceptHandler
  repeat' split
  all_goals try simp
  all_goals (split <;> simp)

/-- C10 (amended): `process_merge_video` resets the per-session operation
flag to `none` on every exit path on which the handler returns normally —
successful append, missing input file, probe failure, queue-full rejection,
and any exception whose error-notification reply succeeds.  (When that reply
itself raises, the exception propagates with the flag unreset; see the
counterexample.) -/
theorem operation_reset_when_no_raise (env : AddEnv) (filepath : String)
    (q : MergeQueue) (fs : FS) (op0 : Option String)
    (h : (process_merge_video env filepath q fs op0).raised = false) :
    (process_merge_video env filepath q fs op0).operation = none := by
  rcases process_raised_or_reset env filepath q fs op0 with h1 | h1
  · rw [h1] at h; exact absurd h (by simp)
  · exact h1

/-- Add-handler environment where every chat reply fails. -/
def addEnvFail : AddEnv := ⟨true, 0, 0, 11, 12, false, true, true, true, true, false⟩

/-- Add-handler environment where every external call succeeds. -/
def addEnvOk : AddEnv := ⟨true, 10, 2000000, 11, 12, true, true, true, true, true, true⟩

/-- Counterexample to C10 as stated: when the input file is missing, the
not-found reply raises, and the error reply inside the generic handler also
raises, `process_merge_video` propagates the exception with the operation
flag still set to its old value instead of resetting it. -/
theorem operation_not_reset_on_double_failure :
    (process_merge_video addEnvFail "tmp/missing.mp4" ⟨[], none⟩ []
        (some "merge_add")).raised = true ∧
      (process_merge_video addEnvFail "tmp/missing.mp4" ⟨[], none⟩ []
        (some "merge_add")).operation = some "merge_add" := by
  decide

/-- Witness for the amended C10: a successful append resets the flag. -/
theorem operation_reset_witness :
    (process_merge_video addEnvOk "tmp/a.mp4" ⟨[], none⟩ fs0
        (some "merge_add")).raised = false ∧
      (process_merge_video addEnvOk "tmp/a.mp4" ⟨[], none⟩ fs0
        (some "merge_add")).operation = none :=
  ⟨by decide,
   operation_reset_when_no_raise addEnvOk "tmp/a.mp4" ⟨[], none⟩ fs0
     (some "merge_add") (by decide)⟩

theorem mergeExceptHandler_TempClean (env : Env) (tf : String) (user : Nat)
    (hs hc ho : Bool) (s : String) (st : PState) (tr : List Ev)
    (h1 : hc = true ∨ fsGet st.fs (concatPath tf) = none)
    (h2 : ho = true ∨ fsGet st.fs (outputPath tf) = none) :
    TempClean (mergeExceptHandler env tf user hs hc ho s st tr) tf := by
  cases hc <;> cases ho <;>
    simp_all [mergeExceptHandler, TempClean, fsGet_removeIfExists_self,
      fsGet_removeIfExists_none]

theorem corruptedExit_TempClean (env : Env) (tf : String) (q : MergeQueue)
    (fs : FS) (tr : List Ev) : TempClean (corruptedExit env tf q fs tr) tf :=
  ⟨fsGet_removeIfExists_self _ _,
   fsGet_removeIfExists_none _ _ _ (fsGet_removeIfExists_self _ _)⟩

theorem finishCleanup_TempClean (tf : String) (st : PState) (tr : List Ev) :
    TempClean (finishCleanup tf st tr) tf :=
  ⟨fsGet_removeIfExists_self _ _,
   fsGet_removeIfExists_none _ _ _ (fsGet_removeIfExists_self _ _)⟩

theorem mergeDeliver_TempClean (env : Env) (tf : String) (user : Nat)
    (um : UploadMode) (st : PState) (fsz : Nat) (tr : List Ev) :
    TempClean (mergeDeliver env tf user um st fsz tr) tf := by
  simp only [mergeDeliver]
  split
  · split
    · exact mergeExceptHandler_TempClean _ _ _ _ _ _ _ _ _
        (Or.inl rfl) (Or.inl rfl)
    · exact finishCleanup_TempClean _ _ _
  · split
    · exact finishCleanup_TempClean _ _ _
    · split
      · exact finishCleanup_TempClean _ _ _
      · exact mergeExceptHandler_TempClean _ _ _ _ _ _ _ _ _
          (Or.inl rfl) (Or.inl rfl)

theorem mergeStage2_TempClean (env : Env) (tf : String) (user : Nat)
    (um : UploadMode) (st : PState) (tr : List Ev) :
    TempClean (mergeStage2 env tf user um st tr) tf := by
  simp only [mergeStage2]
  split
  · exact mergeExceptHandler_TempClean _ _ _ _ _ _ _ _ _
      (Or.inl rfl) (Or.inl rfl)
  · split
    · exact ⟨fsGet_removeIfExists_none _ _ _ (fsGet_removeIfExists_self _ _),
        fsGet_removeIfExists_self _ _⟩
    · split
      · exact corruptedExit_TempClean _ _ _ _ _
      · split
        · exact corruptedExit_TempClean _ _ _ _ _
        · exact mergeDeliver_TempClean _ _ _ _ _ _ _

theorem mergeStage1_TempClean (env : Env) (tf : String)
    (abspath : String → String) (user : Nat) (um : UploadMode) (st : PState)
    (tr0 : List Ev) (hfo : fsGet st.fs (outputPath tf) = none) :
    TempClean (mergeStage1 env tf abspath user um st tr0) tf := by
  simp only [mergeStage1]
  split
  · exact mergeStage2_TempClean _ _ _ _ _ _
  · exact mergeExceptHandler_TempClean _ _ _ _ _ _ _ _ _ (Or.inl rfl)
      (Or.inr (fsGet_fsSet_none _ _ _ _ hfo
        (concatPath_ne_outputPath tf).symm))

theorem mergePipeline_TempClean (env : Env) (tf : String)
    (abspath : String → String) (user : Nat) (um : UploadMode) (st : PState)
    (hfc : fsGet st.fs (concatPath tf) = none)
    (hfo : fsGet st.fs (outputPath tf) = none) :
    TempClean (mergePipeline env tf abspath user um st) tf := by
  unfold mergePipeline
  split
  · exact mergeStage1_TempClean _ _ _ _ _ _ _ hfo
  · split
    · exact mergeStage1_TempClean _ _ _ _ _ _ _ hfo
    · exact mergeExceptHandler_TempClean _ _ _ _ _ _ _ _ _
        (Or.inr hfc) (Or.inr hfo)

/-- Whether the ffmpeg subprocess finished (no timeout) with exit status 0. -/
def ffmpegZeroExit (env : Env) : Bool :=
  match env.ffmpeg with
  | some (rc, _) => rc == 0
  | none => false

/-- Whether the ffmpeg subprocess left an output file of at least 1 KiB. -/
def outputValid (env : Env) : Bool :=
  match env.ffmpegOutput with
  | some s => decide (1024 ≤ s)
  | none => false

/-- Whether the selected delivery dispatch returns normally (without an
exception): a chat-native send and dismissal that both succeed, any
remote-storage outcome, or an unknown-engine report whose status edit
succeeds. -/
def dispatchReturnsNormally (env : Env) (um : UploadMode) : Bool :=
  if um.engine.getD "telegram" = "telegram" then
    env.tgSendOk && env.tgDeleteOk
  else if um.engine.getD "telegram" = "rclone" then true
  else env.unknownEditOk

/-- Whether a run reaches delivery dispatch: status creation succeeds, every
source is readable, ffmpeg exits 0 and the output passes validation. -/
def runsToDispatch (env : Env) (tf : String) (abspath : String → String)
    (st : PState) : Bool :=
  (env.editInitialOk || env.fallbackSendOk) &&
    sourcesReadable tf abspath st && ffmpegZeroExit env && outputValid env

theorem upload_tg_raised_eq (env : Env) (a b c : Nat) (doc : Bool) :
    (_upload_to_telegram env a b c doc).2 =
      !(env.tgSendOk && env.tgDeleteOk) := by
  cases doc <;> cases htg : env.tgSendOk <;> cases hdel : env.tgDeleteOk <;>
    simp [_upload_to_telegram, htg, hdel]

theorem mergeStage1_queue_eq (env : Env) (tf : String)
    (abspath : String → String) (user : Nat) (um : UploadMode) (st : PState)
    (tr0 : List Ev)
    (hfo : fsGet st.fs (outputPath tf) = none)
    (hcr2 : (env.editInitialOk || env.fallbackSendOk) = true) :
    (mergeStage1 env tf abspath user um st tr0).state.queue =
      (if runsToDispatch env tf abspath st && dispatchReturnsNormally env um
       then (⟨[], none⟩ : MergeQueue) else st.queue) := by
  have hval : fsGet (ffmpegFs env tf (fsSet st.fs (concatPath tf)
      (manifestContent abspath st.queue.videos).length)) (outputPath tf) =
      env.ffmpegOutput := by
    unfold ffmpegFs
    cases ho : env.ffmpegOutput with
    | none =>
      exact fsGet_fsSet_none _ _ _ _ hfo (concatPath_ne_outputPath tf).symm
    | some s => exact fsGet_fsSet_self _ _ _
  simp only [mergeStage1]
  cases hrd : sourcesReadable tf abspath st with
  | false =>
    simp [mergeExceptHandler, runsToDispatch, hrd]
  | true =>
    rw [if_pos rfl]
    simp only [mergeStage2]
    split
    · rename_i heq
      simp [mergeExceptHandler, runsToDispatch, ffmpegZeroExit, heq]
    · rename_i rc0 sd0 heq
      by_cases hrc : rc0 ≠ 0
      · rw [if_pos hrc]
        simp [runsToDispatch, ffmpegZeroExit, heq, hrc]
      · have hrc0 : rc0 = 0 := not_ne_iff.mp hrc
        rw [if_neg hrc]
        split
        · rename_i hnone
          have ho : env.ffmpegOutput = none := hval.symm.trans hnone
          simp [corruptedExit, runsToDispatch, outputValid, ho]
        · rename_i s hsome
          have ho : env.ffmpegOutput = some s := hval.symm.trans hsome
          by_cases hlt : s < 1024
          · rw [if_pos hlt]
            simp [corruptedExit, runsToDispatch, outputValid, ho,
              Nat.not_le.mpr hlt]
          · rw [if_neg hlt]
            have hle : 1024 ≤ s := Nat.not_lt.mp hlt
            simp only [mergeDeliver]
            by_cases heng1 : um.engine.getD "telegram" = "telegram"
            · rw [if_pos heng1]
              rw [upload_tg_raised_eq]
              cases htgd : (env.tgSendOk && env.tgDeleteOk) with
              | true =>
                simp [finishCleanup, MergeQueue.clear_all, runsToDispatch,
                  outputValid, ho, hle, ffmpegZeroExit, heq, hrc0, hrd, hcr2,
                  dispatchReturnsNormally, heng1, htgd]
              | false =>
                simp [mergeExceptHandler, runsToDispatch, outputValid, ho,
                  hle, ffmpegZeroExit, heq, hrc0, hrd, hcr2,
                  dispatchReturnsNormally, heng1, htgd]
            · rw [if_neg heng1]
              by_cases heng2 : um.engine.getD "telegram" = "rclone"
              · rw [if_pos heng2]
                simp [finishCleanup, MergeQueue.clear_all, runsToDispatch,
                  outputValid, ho, hle, ffmpegZeroExit, heq, hrc0, hrd, hcr2,
                  dispatchReturnsNormally, heng1, heng2]
              · rw [if_neg heng2]
                cases hue : env.unknownEditOk with
                | true =>
                  rw [if_pos rfl]
                  simp [finishCleanup, MergeQueue.clear_all, runsToDispatch,
                    outputValid, ho, hle, ffmpegZeroExit, heq, hrc0, hrd,
                    hcr2, dispatchReturnsNormally, heng1, heng2, hue]
                | false =>
                  rw [if_neg (by simp)]
                  simp [mergeExceptHandler, runsToDispatch,
                    dispatchReturnsNormally, heng1, heng2, hue]

/-- C1 (amended): for every merge execution that passes the entry
preconditions and starts with a clean temp folder, the manifest file and the
output artifact are absent when the pipeline returns, on every exit path; and
the final queue is exactly characterized: it is cleared precisely on runs
that reach delivery dispatch and return from it normally, and left untouched
on every other exit — merge-invocation failure (non-zero exit or timeout),
output-validation failure, and every mid-pipeline exception (status-creation
failure, unreadable source, re-raising chat-native delivery, failing
unknown-engine report). -/
theorem cleanup_always_files_queue_only_on_dispatch (env : Env) (tf : String)
    (abspath : String → String) (user : Nat) (um : UploadMode) (st : PState)
    (hpre : passesPreconds (some um) st = true)
    (hfc : fsGet st.fs (concatPath tf) = none)
    (hfo : fsGet st.fs (outputPath tf) = none) :
    TempClean (execute_smart_merge env tf abspath user (some um) st) tf ∧
    (execute_smart_merge env tf abspath user (some um) st).state.queue =
      (if runsToDispatch env tf abspath st && dispatchReturnsNormally env um
       then (⟨[], none⟩ : MergeQueue) else st.queue) := by
  obtain ⟨h1, h2⟩ := (passesPreconds_some_iff um st).mp hpre
  refine ⟨?_, ?_⟩
  · simp only [execute_smart_merge, if_neg h1, if_neg h2]
    exact mergePipeline_TempClean env tf abspath user um st hfc hfo
  · simp only [execute_smart_merge, if_neg h1, if_neg h2]
    by_cases heo : env.editInitialOk = true
    · simp only [mergePipeline, heo, if_true]
      exact mergeStage1_queue_eq env tf abspath user um st _ hfo
        (by simp [heo])
    · by_cases hfb : env.fallbackSendOk = true
      · simp only [mergePipeline, heo, hfb, if_true, if_false,
          Bool.false_eq_true]
        exact mergeStage1_queue_eq env tf abspath user um st _ hfo
          (by simp [hfb])
      · have he1 : env.editInitialOk = false := by
          cases h3 : env.editInitialOk
          · rfl
          · exact absurd h3 heo
        have he2 : env.fallbackSendOk = false := by
          cases h3 : env.fallbackSendOk
          · rfl
          · exact absurd h3 hfb
        simp only [mergePipeline, he1, he2, Bool.false_eq_true, if_false]
        simp [mergeExceptHandler, runsToDispatch, he1, he2]

/-- Counterexample to C1 as stated: a run whose merge invocation exits 1
removes the manifest and partial output but returns with the queue still
holding its two videos — the queue is not cleared on this exit path. -/
theorem queue_not_cleared_on_merge_failure :
    (execute_smart_merge envMergeFail "tmp" id 7 (some umTgVideo) st0).state.queue.videos = [vidA, vidB] ∧
      (execute_smart_merge envMergeFail "tmp" id 7 (some umTgVideo) st0).state.queue.videos ≠ [] := by
  decide

/-- Witness for the amended C1: on the failing-invocation fixture the temp
files are gone and the queue outcome follows the dispatch characterization
(here: untouched). -/
theorem cleanup_always_witness :
    (passesPreconds (some umTgVideo) st0 = true ∧
      fsGet st0.fs (concatPath "tmp") = none ∧
      fsGet st0.fs (outputPath "tmp") = none) ∧
    (TempClean (execute_smart_merge envMergeFail "tmp" id 7 (some umTgVideo) st0) "tmp" ∧
      (execute_smart_merge envMergeFail "tmp" id 7 (some umTgVideo) st0).state.queue =
        (if runsToDispatch envMergeFail "tmp" id st0 &&
            dispatchReturnsNormally envMergeFail umTgVideo
         then (⟨[], none⟩ : MergeQueue) else st0.queue)) :=
  ⟨⟨by decide, by decide, by decide⟩,
   cleanup_always_files_queue_only_on_dispatch envMergeFail "tmp" id 7
     umTgVideo st0 (by decide) (by decide) (by decide)⟩

theorem mergeStage1_trace_on_invocation_failure (env : Env) (tf : String)
    (abspath : String → String) (user : Nat) (um : UploadMode) (st : PState)
    (tr0 : List Ev) (rc : Int) (stderr : String)
    (hrd : sourcesReadable tf abspath st = true)
    (hff : env.ffmpeg = some (rc, stderr)) (hrc : rc ≠ 0) :
    (mergeStage1 env tf abspath user um st tr0).trace =
      (((tr0 ++ [Ev.writeFile (concatPath tf)
          (manifestContent abspath st.queue.videos)]) ++
        [Ev.editStatus env.edit5Ok (Msg.merging (totalSizeBytes
          (fsSet st.fs (concatPath tf)
            (manifestContent abspath st.queue.videos).length)
          st.queue.videos))]) ++
       [Ev.runFfmpeg (mergeCmd tf)]) ++
      [Ev.log "FFmpeg merge failed", Ev.log stderr,
       Ev.editStatus env.editFailOk Msg.mergeFailed] := by
  simp only [mergeStage1, hrd, if_true, mergeStage2, hff, hrc, ne_eq,
    not_false_eq_true, if_true]

theorem mergeStage1_state_on_invocation_failure (env : Env) (tf : String)
    (abspath : String → String) (user : Nat) (um : UploadMode) (st : PState)
    (tr0 : List Ev) (rc : Int) (stderr : String)
    (hrd : sourcesReadable tf abspath st = true)
    (hff : env.ffmpeg = some (rc, stderr)) (hrc : rc ≠ 0) :
    (mergeStage1 env tf abspath user um st tr0).state =
      ⟨st.queue,
       removeIfExists (removeIfExists
         (ffmpegFs env tf (fsSet st.fs (concatPath tf)
           (manifestContent abspath st.queue.videos).length))
         (concatPath tf)) (outputPath tf)⟩ := by
  simp only [mergeStage1, hrd, if_true, mergeStage2, hff, hrc, ne_eq,
    not_false_eq_true, if_true]

/-- Whether an event displays the given raw text on a user-visible surface
(the diagnostic-carrying message constructors). -/
def displaysText (s : String) : Ev → Bool
  | Ev.editStatus _ (Msg.mergeError s2) => s2 == s
  | Ev.sendStatus _ _ (Msg.mergeError s2) => s2 == s
  | Ev.editStatus _ (Msg.rcloneFailed s2) => s2 == s
  | Ev.editStatus _ (Msg.rcloneFailedExn s2) => s2 == s
  | Ev.answer s2 => s2 == s
  | Ev.replyText _ s2 => s2 == s
  | _ => false

/-- C4: whenever the merge invocation exits non-zero, the run shows the
generic incompatible-format failure message, logs the captured stderr without
ever displaying it, removes both the manifest and any partial output, and
never proceeds to the validation marker or any delivery event. -/
theorem merge_failure_generic_cleanup (env : Env) (tf : String)
    (abspath : String → String) (user : Nat) (um : UploadMode) (st : PState)
    (rc : Int) (stderr : String)
    (hpre : passesPreconds (some um) st = true)
    (hcr : env.editInitialOk = true ∨ env.fallbackSendOk = true)
    (hrd : sourcesReadable tf abspath st = true)
    (hff : env.ffmpeg = some (rc, stderr)) (hrc : rc ≠ 0) :
    Ev.editStatus env.editFailOk Msg.mergeFailed ∈
      (execute_smart_merge env tf abspath user (some um) st).trace ∧
    Ev.log stderr ∈
      (execute_smart_merge env tf abspath user (some um) st).trace ∧
    TempClean (execute_smart_merge env tf abspath user (some um) st) tf ∧
    (execute_smart_merge env tf abspath user (some um) st).trace.any
      isDeliveryEv = false ∧
    (execute_smart_merge env tf abspath user (some um) st).trace.any
      isUploadingEv = false ∧
    (execute_smart_merge env tf abspath user (some um) st).trace.any
      (displaysText stderr) = false := by
  obtain ⟨h1, h2⟩ := (passesPreconds_some_iff um st).mp hpre
  have key : ∀ tr0 : List Ev,
      tr0.any isDeliveryEv = false →
      tr0.any isUploadingEv = false →
      tr0.any (displaysText stderr) = false →
      Ev.editStatus env.editFailOk Msg.mergeFailed ∈
        (mergeStage1 env tf abspath user um st tr0).trace ∧
      Ev.log stderr ∈ (mergeStage1 env tf abspath user um st tr0).trace ∧
      TempClean (mergeStage1 env tf abspath user um st tr0) tf ∧
      (mergeStage1 env tf abspath user um st tr0).trace.any
        isDeliveryEv = false ∧
      (mergeStage1 env tf abspath user um st tr0).trace.any
        isUploadingEv = false ∧
      (mergeStage1 env tf abspath user um st tr0).trace.any
        (displaysText stderr) = false := by
    intro tr0 hd hu he
    have hst := mergeStage1_state_on_invocation_failure env tf abspath user
      um st tr0 rc stderr hrd hff hrc
    rw [mergeStage1_trace_on_invocation_failure env tf abspath user um st tr0
      rc stderr hrd hff hrc]
    refine ⟨by simp, by simp, ?_, ?_, ?_, ?_⟩
    · unfold TempClean
      rw [hst]
      exact ⟨fsGet_removeIfExists_none _ _ _ (fsGet_removeIfExists_self _ _),
        fsGet_removeIfExists_self _ _⟩
    · simp [List.any_append, hd, isDeliveryEv]
    · simp [List.any_append, hu, isUploadingEv]
    · simp [List.any_append, he, displaysText]
  simp only [execute_smart_merge, if_neg h1, if_neg h2]
  by_cases heo : env.editInitialOk = true
  · simp only [mergePipeline, heo, if_true]
    exact key _ rfl rfl (by simp [displaysText])
  · have hfb : env.fallbackSendOk = true := hcr.resolve_left heo
    simp only [mergePipeline, heo, hfb, if_true, if_false, Bool.false_eq_true]
    exact key _ rfl rfl (by simp [displaysText])

/-- Witness for C4: the concrete failing-invocation run. -/
theorem merge_failure_generic_cleanup_witness :
    (passesPreconds (some umTgVideo) st0 = true ∧
      sourcesReadable "tmp" id st0 = true ∧
      envMergeFail.ffmpeg = some (1, "stderr detail") ∧ (1 : Int) ≠ 0) ∧
    (Ev.editStatus envMergeFail.editFailOk Msg.mergeFailed ∈
        (execute_smart_merge envMergeFail "tmp" id 7 (some umTgVideo) st0).trace ∧
      Ev.log "stderr detail" ∈
        (execute_smart_merge envMergeFail "tmp" id 7 (some umTgVideo) st0).trace ∧
      TempClean (execute_smart_merge envMergeFail "tmp" id 7 (some umTgVideo) st0) "tmp" ∧
      (execute_smart_merge envMergeFail "tmp" id 7 (some umTgVideo) st0).trace.any
        isDeliveryEv = false ∧
      (execute_smart_merge envMergeFail "tmp" id 7 (some umTgVideo) st0).trace.any
        isUploadingEv = false ∧
      (execute_smart_merge envMergeFail "tmp" id 7 (some umTgVideo) st0).trace.any
        (displaysText "stderr detail") = false) :=
  ⟨⟨by decide, by decide, by decide, by decide⟩,
   merge_failure_generic_cleanup envMergeFail "tmp" id 7 umTgVideo st0 1
     "stderr detail" (by decide) (Or.inl rfl) (by decide) (by decide)
     (by decide)⟩

theorem fsGet_fs1_out_none (tf : String) (abspath : String → String)
    (st : PState) (hfo : fsGet st.fs (outputPath tf) = none) :
    fsGet (fsSet st.fs (concatPath tf)
      (manifestContent abspath st.queue.videos).length) (outputPath tf) =
      none :=
  fsGet_fsSet_none _ _ _ _ hfo (concatPath_ne_outputPath tf).symm

/-- C5 (amended): after a zero-exit merge invocation, the run reaches the
validation/delivery stage (marked by the 95% status update) if and only if
the output artifact exists with size at least 1 KiB (1024 bytes, inclusive);
otherwise it shows the corrupted-output message — a message distinct from the
merge-invocation failure message — and deletes both the output and the
manifest before returning. -/
theorem validation_gate_at_1024 (env : Env) (tf : String)
    (abspath : String → String) (user : Nat) (um : UploadMode) (st : PState)
    (stderr : String)
    (hpre : passesPreconds (some um) st = true)
    (hcr : env.editInitialOk = true ∨ env.fallbackSendOk = true)
    (hrd : sourcesReadable tf abspath st = true)
    (hff : env.ffmpeg = some (0, stderr))
    (hfo : fsGet st.fs (outputPath tf) = none) :
    ((execute_smart_merge env tf abspath user (some um) st).trace.any
        isUploadingEv = true ↔
      ∃ s, env.ffmpegOutput = some s ∧ 1024 ≤ s) ∧
    (¬ (∃ s, env.ffmpegOutput = some s ∧ 1024 ≤ s) →
      Ev.editStatus env.editCorruptOk Msg.outputCorrupted ∈
        (execute_smart_merge env tf abspath user (some um) st).trace ∧
      TempClean (execute_smart_merge env tf abspath user (some um) st) tf) ∧
    Msg.outputCorrupted ≠ Msg.mergeFailed := by
  obtain ⟨h1, h2⟩ := (passesPreconds_some_iff um st).mp hpre
  have key : ∀ tr0 : List Ev, tr0.any isUploadingEv = false →
      ((mergeStage1 env tf abspath user um st tr0).trace.any
          isUploadingEv = true ↔
        ∃ s, env.ffmpegOutput = some s ∧ 1024 ≤ s) ∧
      (¬ (∃ s, env.ffmpegOutput = some s ∧ 1024 ≤ s) →
        Ev.editStatus env.editCorruptOk Msg.outputCorrupted ∈
          (mergeStage1 env tf abspath user um st tr0).trace ∧
        TempClean (mergeStage1 env tf abspath user um st tr0) tf) := by
    intro tr0 hu
    simp only [mergeStage1, hrd, if_true, mergeStage2, hff]
    rw [if_neg (by simp : ¬ ((0 : Int) ≠ 0))]
    cases hout : env.ffmpegOutput with
    | none =>
      have hnone : fsGet (ffmpegFs env tf (fsSet st.fs (concatPath tf)
          (manifestContent abspath st.queue.videos).length)) (outputPath tf) =
          none := by
        unfold ffmpegFs
        rw [hout]
        exact fsGet_fs1_out_none tf abspath st hfo
      simp only [hnone]
      refine ⟨?_, fun hne => ⟨by simp [corruptedExit], corruptedExit_TempClean _ _ _ _ _⟩⟩
      constructor
      · intro hany
        exact absurd hany (by simp [corruptedExit, List.any_append, hu,
          isUploadingEv])
      · rintro ⟨s, hs, -⟩
        cases hs
    | some s =>
      have hsome : fsGet (ffmpegFs env tf (fsSet st.fs (concatPath tf)
          (manifestContent abspath st.queue.videos).length)) (outputPath tf) =
          some s := by
        unfold ffmpegFs
        rw [hout]
        exact fsGet_fsSet_self _ _ _
      simp only [hsome]
      by_cases hs : s < 1024
      · rw [if_pos hs]
        refine ⟨?_, fun hne => ⟨by simp [corruptedExit], corruptedExit_TempClean _ _ _ _ _⟩⟩
        constructor
        · intro hany
          exact absurd hany (by simp [corruptedExit, List.any_append, hu,
            isUploadingEv])
        · rintro ⟨s2, hs2, hle⟩
          obtain rfl : s = s2 := Option.some.inj hs2
          exact absurd hle (by omega)
      · rw [if_neg hs]
        refine ⟨?_, fun hne => absurd ⟨s, rfl, by omega⟩ hne⟩
        constructor
        · intro _
          exact ⟨s, rfl, by omega⟩
        · intro _
          refine List.any_eq_true.mpr
            ⟨Ev.editStatus env.edit95Ok Msg.uploading, ?_, by simp [isUploadingEv]⟩
          exact mem_trace_mergeDeliver _ _ _ _ _ _ _ _
            (List.mem_append_right _ (by simp))
  simp only [execute_smart_merge, if_neg h1, if_neg h2]
  by_cases heo : env.editInitialOk = true
  · simp only [mergePipeline, heo, if_true]
    exact ⟨(key [Ev.editQueryMsg true Msg.preparing] rfl).1,
      (key [Ev.editQueryMsg true Msg.preparing] rfl).2, by simp⟩
  · have hfb : env.fallbackSendOk = true := hcr.resolve_left heo
    simp only [mergePipeline, heo, hfb, if_true, if_false, Bool.false_eq_true]
    exact ⟨(key [Ev.editQueryMsg false Msg.preparing,
        Ev.sendStatus user true Msg.preparing] rfl).1,
      (key [Ev.editQueryMsg false Msg.preparing,
        Ev.sendStatus user true Msg.preparing] rfl).2, by simp⟩

/-- Counterexample to C5 as stated: with an output of exactly 1024 bytes
(which does not exceed 1 KiB) the pipeline still proceeds to delivery,
because the code's check is `size < 1024`, not `size <= 1024`. -/
theorem delivery_proceeds_at_exactly_1024 :
    (execute_smart_merge env1024 "tmp" id 7 (some umTgVideo) st0).trace.any
        isDeliveryEv = true ∧
      env1024.ffmpegOutput = some 1024 ∧ ¬ (1024 : Nat) > 1024 := by
  decide

/-- Witness for the amended C5: an undersized (300-byte) output is rejected
with the corrupted-output message and both temp files removed. -/
def envSmallOut : Env := { envOk with ffmpegOutput := some 300 }

/-- Witness for the amended C5. -/
theorem validation_gate_at_1024_witness :
    (passesPreconds (some umTgVideo) st0 = true ∧
      sourcesReadable "tmp" id st0 = true ∧
      envSmallOut.ffmpeg = some (0, "") ∧
      fsGet st0.fs (outputPath "tmp") = none) ∧
    (((execute_smart_merge envSmallOut "tmp" id 7 (some umTgVideo) st0).trace.any
        isUploadingEv = true ↔
      ∃ s, envSmallOut.ffmpegOutput = some s ∧ 1024 ≤ s) ∧
    (¬ (∃ s, envSmallOut.ffmpegOutput = some s ∧ 1024 ≤ s) →
      Ev.editStatus envSmallOut.editCorruptOk Msg.outputCorrupted ∈
        (execute_smart_merge envSmallOut "tmp" id 7 (some umTgVideo) st0).trace ∧
      TempClean (execute_smart_merge envSmallOut "tmp" id 7 (some umTgVideo) st0) "tmp") ∧
    Msg.outputCorrupted ≠ Msg.mergeFailed) :=
  ⟨⟨by decide, by decide, by decide, by decide⟩,
   validation_gate_at_1024 envSmallOut "tmp" id 7 umTgVideo st0 ""
     (by decide) (Or.inl rfl) (by decide) (by decide) (by decide)⟩

theorem upload_tg_send_mem (env : Env) (fsz dur el : Nat) (doc : Bool) :
    (doc = true → Ev.sendDocument env.tgSendOk fsz dur el ∈
      (_upload_to_telegram env fsz dur el doc).1) ∧
    (doc = false → Ev.sendVideo env.tgSendOk fsz dur el ∈
      (_upload_to_telegram env fsz dur el doc).1) ∧
    (env.tgSendOk = true → env.tgDeleteOk = true →
      Ev.deleteStatus true ∈ (_upload_to_telegram env fsz dur el doc).1 ∧
      (_upload_to_telegram env fsz dur el doc).2 = false) ∧
    (env.tgSendOk = false →
      (_upload_to_telegram env fsz dur el doc).2 = true ∧
      (_upload_to_telegram env fsz dur el doc).1.countP isDeliveryEv = 1) := by
  cases doc <;> cases htg : env.tgSendOk <;> cases hdel : env.tgDeleteOk <;>
    simp [_upload_to_telegram, htg, hdel, isDeliveryEv, List.countP_cons,
      List.countP_nil]

theorem mergeDeliver_raised (env : Env) (tf : String) (user : Nat)
    (um : UploadMode) (st : PState) (fsz : Nat) (tr : List Ev) :
    (mergeDeliver env tf user um st fsz tr).raised = false := by
  simp only [mergeDeliver]
  split
  · split
    · rfl
    · rfl
  · split
    · rfl
    · split
      · rfl
      · rfl

theorem mergeStage2_raised (env : Env) (tf : String) (user : Nat)
    (um : UploadMode) (st : PState) (tr : List Ev) :
    (mergeStage2 env tf user um st tr).raised = false := by
  simp only [mergeStage2]
  split
  · rfl
  · split
    · rfl
    · split
      · rfl
      · split
        · rfl
        · exact mergeDeliver_raised _ _ _ _ _ _ _

theorem mergeStage1_raised (env : Env) (tf : String)
    (abspath : String → String) (user : Nat) (um : UploadMode) (st : PState)
    (tr0 : List Ev) :
    (mergeStage1 env tf abspath user um st tr0).raised = false := by
  simp only [mergeStage1]
  split
  · exact mergeStage2_raised _ _ _ _ _ _
  · rfl

theorem execute_smart_merge_never_raises (env : Env) (tf : String)
    (abspath : String → String) (user : Nat) (um : Option UploadMode)
    (st : PState) :
    (execute_smart_merge env tf abspath user um st).raised = false := by
  cases um with
  | none => rfl
  | some um =>
    simp only [execute_smart_merge, mergePipeline]
    split
    · rfl
    · split
      · rfl
      · split
        · exact mergeStage1_raised _ _ _ _ _ _ _
        · split
          · exact mergeStage1_raised _ _ _ _ _ _ _
          · rfl

theorem mem_upload_tg_in_mergeDeliver (env : Env) (tf : String) (user : Nat)
    (um : UploadMode) (st : PState) (fsz : Nat) (tr : List Ev)
    (heng : um.engine = some "telegram") (e : Ev)
    (he : e ∈ (_upload_to_telegram env fsz
      (MergeQueue.get_total_duration st.queue) env.elapsed
      (um.format = some "document")).1) :
    e ∈ (mergeDeliver env tf user um st fsz tr).trace := by
  simp only [mergeDeliver, heng, Option.getD_some, if_true]
  split
  · exact mem_trace_mergeExceptHandler _ _ _ _ _ _ _ _ _ _
      (List.mem_append_right _ he)
  · exact mem_trace_finishCleanup _ _ _ _ (List.mem_append_right _ he)

/-- C6: on chat-native delivery the artifact is sent as a document when the
format is "document" and as a playable video when the format is "video", with
the caption data carrying the output size, the total duration and the elapsed
wall-clock time since pipeline start; when the send and the dismissal both
succeed the status message is deleted; the handler itself absorbs the
failure, while `_upload_to_telegram` re-raises a failed send to its caller
after exactly one delivery attempt (no retry). -/
theorem telegram_delivery_format_caption (env : Env) (tf : String)
    (abspath : String → String) (user : Nat) (um : UploadMode) (st : PState)
    (stderr : String) (s : Nat)
    (hpre : passesPreconds (some um) st = true)
    (hcr : env.editInitialOk = true ∨ env.fallbackSendOk = true)
    (hrd : sourcesReadable tf abspath st = true)
    (hff : env.ffmpeg = some (0, stderr))
    (hout : env.ffmpegOutput = some s) (hs : 1024 ≤ s)
    (heng : um.engine = some "telegram") :
    (um.format = some "document" →
      Ev.sendDocument env.tgSendOk s (MergeQueue.get_total_duration st.queue)
        env.elapsed ∈
        (execute_smart_merge env tf abspath user (some um) st).trace) ∧
    (um.format = some "video" →
      Ev.sendVideo env.tgSendOk s (MergeQueue.get_total_duration st.queue)
        env.elapsed ∈
        (execute_smart_merge env tf abspath user (some um) st).trace) ∧
    (env.tgSendOk = true → env.tgDeleteOk = true →
      Ev.deleteStatus true ∈
        (execute_smart_merge env tf abspath user (some um) st).trace) ∧
    (execute_smart_merge env tf abspath user (some um) st).raised = false ∧
    (∀ fsz dur el doc, env.tgSendOk = false →
      (_upload_to_telegram env fsz dur el doc).2 = true ∧
      (_upload_to_telegram env fsz dur el doc).1.countP isDeliveryEv = 1) := by
  obtain ⟨h1, h2⟩ := (passesPreconds_some_iff um st).mp hpre
  have key : ∀ (tr0 : List Ev) (e : Ev),
      e ∈ (_upload_to_telegram env s
        (MergeQueue.get_total_duration st.queue) env.elapsed
        (um.format = some "document")).1 →
      e ∈ (mergeStage1 env tf abspath user um st tr0).trace := by
    intro tr0 e he
    simp only [mergeStage1, hrd, if_true, mergeStage2, hff]
    rw [if_neg (by simp : ¬ ((0 : Int) ≠ 0))]
    have hsome : fsGet (ffmpegFs env tf (fsSet st.fs (concatPath tf)
        (manifestContent abspath st.queue.videos).length)) (outputPath tf) =
        some s := by
      unfold ffmpegFs
      rw [hout]
      exact fsGet_fsSet_self _ _ _
    simp only [hsome]
    rw [if_neg (not_lt.mpr hs)]
    exact mem_upload_tg_in_mergeDeliver env tf user um _ s _ heng e he
  have lift : ∀ e : Ev,
      e ∈ (_upload_to_telegram env s
        (MergeQueue.get_total_duration st.queue) env.elapsed
        (um.format = some "document")).1 →
      e ∈ (execute_smart_merge env tf abspath user (some um) st).trace := by
    intro e he
    simp only [execute_smart_merge, if_neg h1, if_neg h2]
    by_cases heo : env.editInitialOk = true
    · simp only [mergePipeline, heo, if_true]
      exact key _ e he
    · have hfb : env.fallbackSendOk = true := hcr.resolve_left heo
      simp only [mergePipeline, heo, hfb, if_true, if_false,
        Bool.false_eq_true]
      exact key _ e he
  refine ⟨?_, ?_, ?_, execute_smart_merge_never_raises _ _ _ _ _ _,
    fun fsz dur el doc h =>
      (upload_tg_send_mem env fsz dur el doc).2.2.2 h⟩
  · intro hfmt
    refine lift _ ((upload_tg_send_mem env s
      (MergeQueue.get_total_duration st.queue) env.elapsed _).1 ?_)
    rw [hfmt]
    simp
  · intro hfmt
    refine lift _ ((upload_tg_send_mem env s
      (MergeQueue.get_total_duration st.queue) env.elapsed _).2.1 ?_)
    rw [hfmt]
    simp
  · intro ht hd
    exact lift _ ((upload_tg_send_mem env s
      (MergeQueue.get_total_duration st.queue) env.elapsed _).2.2.1 ht hd).1

/-- C9: `_upload_to_rclone` never re-raises — an unsuccessful result, a
failed import and any other exception are each absorbed after attempting a
terminal status edit — so a run dispatching to remote storage always reaches
the queue-clear and artifact-removal step; by contrast `_upload_to_telegram`
re-raises a failed send. -/
theorem rclone_absorbs_failures_queue_cleared (env : Env) (tf : String)
    (abspath : String → String) (user : Nat) (um : UploadMode) (st : PState)
    (stderr : String) (s : Nat)
    (hpre : passesPreconds (some um) st = true)
    (hcr : env.editInitialOk = true ∨ env.fallbackSendOk = true)
    (hrd : sourcesReadable tf abspath st = true)
    (hff : env.ffmpeg = some (0, stderr))
    (hout : env.ffmpegOutput = some s) (hs : 1024 ≤ s)
    (heng : um.engine = some "rclone") :
    (∀ (env2 : Env) (fsz el : Nat), (_upload_to_rclone env2 fsz el).2 = false) ∧
    (∀ (env2 : Env) (fsz el : Nat), ∃ b m,
      Ev.editStatus b m ∈ (_upload_to_rclone env2 fsz el).1) ∧
    (execute_smart_merge env tf abspath user (some um) st).state.queue.videos
      = [] ∧
    TempClean (execute_smart_merge env tf abspath user (some um) st) tf ∧
    (execute_smart_merge env tf abspath user (some um) st).raised = false ∧
    (∀ (fsz dur el : Nat) (doc : Bool), env.tgSendOk = false →
      (_upload_to_telegram env fsz dur el doc).2 = true) := by
  obtain ⟨h1, h2⟩ := (passesPreconds_some_iff um st).mp hpre
  have key : ∀ tr0 : List Ev,
      (mergeStage1 env tf abspath user um st tr0).state.queue.videos = [] ∧
      TempClean (mergeStage1 env tf abspath user um st tr0) tf := by
    intro tr0
    simp only [mergeStage1, hrd, if_true, mergeStage2, hff]
    rw [if_neg (by simp : ¬ ((0 : Int) ≠ 0))]
    have hsome : fsGet (ffmpegFs env tf (fsSet st.fs (concatPath tf)
        (manifestContent abspath st.queue.videos).length)) (outputPath tf) =
        some s := by
      unfold ffmpegFs
      rw [hout]
      exact fsGet_fsSet_self _ _ _
    simp only [hsome]
    rw [if_neg (not_lt.mpr hs)]
    simp only [mergeDeliver, heng, Option.getD_some, if_true]
    exact ⟨rfl, finishCleanup_TempClean _ _ _⟩
  have main : ((execute_smart_merge env tf abspath user (some um) st).state.queue.videos = []) ∧
      TempClean (execute_smart_merge env tf abspath user (some um) st) tf := by
    simp only [execute_smart_merge, if_neg h1, if_neg h2]
    by_cases heo : env.editInitialOk = true
    · simp only [mergePipeline, heo, if_true]
      exact key _
    · have hfb : env.fallbackSendOk = true := hcr.resolve_left heo
      simp only [mergePipeline, heo, hfb, if_true, if_false,
        Bool.false_eq_true]
      exact key _
  refine ⟨?_, ?_, main.1, main.2,
    execute_smart_merge_never_raises _ _ _ _ _ _,
    fun fsz dur el doc h =>
      ((upload_tg_send_mem env fsz dur el doc).2.2.2 h).1⟩
  · intro env2 fsz el
    simp only [_upload_to_rclone]
    split
    · rfl
    · rfl
    · split
      · rfl
      · rfl
  · intro env2 fsz el
    simp only [_upload_to_rclone]
    split
    · exact ⟨env2.rcloneEditOk, Msg.rcloneImportErr, by simp⟩
    · rename_i m heq
      exact ⟨env2.rcloneEditOk, Msg.rcloneFailedExn m, by simp⟩
    · rename_i success remote error heq
      split
      · exact ⟨env2.rcloneEditOk,
          Msg.rcloneDone (remote.getD "Unknown") fsz el, by simp⟩
      · exact ⟨env2.rcloneEditOk,
          Msg.rcloneFailed (error.getD "Unknown error"), by simp⟩

/-- Witness for C6: the fully successful chat-native run. -/
theorem telegram_delivery_witness :
    (passesPreconds (some umTgVideo) st0 = true ∧
      sourcesReadable "tmp" id st0 = true ∧
      envOk.ffmpeg = some (0, "") ∧ envOk.ffmpegOutput = some 5000000 ∧
      (1024 : Nat) ≤ 5000000 ∧ umTgVideo.engine = some "telegram") ∧
    ((umTgVideo.format = some "document" →
        Ev.sendDocument envOk.tgSendOk 5000000
          (MergeQueue.get_total_duration st0.queue) envOk.elapsed ∈
          (execute_smart_merge envOk "tmp" id 7 (some umTgVideo) st0).trace) ∧
      (umTgVideo.format = some "video" →
        Ev.sendVideo envOk.tgSendOk 5000000
          (MergeQueue.get_total_duration st0.queue) envOk.elapsed ∈
          (execute_smart_merge envOk "tmp" id 7 (some umTgVideo) st0).trace) ∧
      (envOk.tgSendOk = true → envOk.tgDeleteOk = true →
        Ev.deleteStatus true ∈
          (execute_smart_merge envOk "tmp" id 7 (some umTgVideo) st0).trace) ∧
      (execute_smart_merge envOk "tmp" id 7 (some umTgVideo) st0).raised =
        false ∧
      (∀ (fsz dur el : Nat) (doc : Bool), envOk.tgSendOk = false →
        (_upload_to_telegram envOk fsz dur el doc).2 = true ∧
        (_upload_to_telegram envOk fsz dur el doc).1.countP isDeliveryEv
          = 1)) :=
  ⟨⟨by decide, by decide, by decide, by decide, by decide, by decide⟩,
   telegram_delivery_format_caption envOk "tmp" id 7 umTgVideo st0 "" 5000000
     (by decide) (Or.inl rfl) (by decide) (by decide) (by decide) (by decide)
     (by decide)⟩

/-- Witness for C9: a successful remote-storage run. -/
theorem rclone_absorbs_witness :
    (passesPreconds (some umRclone) st0 = true ∧
      sourcesReadable "tmp" id st0 = true ∧
      envOk.ffmpeg = some (0, "") ∧ envOk.ffmpegOutput = some 5000000 ∧
      (1024 : Nat) ≤ 5000000 ∧ umRclone.engine = some "rclone") ∧
    ((∀ (env2 : Env) (fsz el : Nat),
        (_upload_to_rclone env2 fsz el).2 = false) ∧
      (∀ (env2 : Env) (fsz el : Nat), ∃ b m,
        Ev.editStatus b m ∈ (_upload_to_rclone env2 fsz el).1) ∧
      ((execute_smart_merge envOk "tmp" id 7 (some umRclone) st0).state.queue.videos = []) ∧
      TempClean (execute_smart_merge envOk "tmp" id 7 (some umRclone) st0)
        "tmp" ∧
      (execute_smart_merge envOk "tmp" id 7 (some umRclone) st0).raised =
        false ∧
      (∀ (fsz dur el : Nat) (doc : Bool), envOk.tgSendOk = false →
        (_upload_to_telegram envOk fsz dur el doc).2 = true)) :=
  ⟨⟨by decide, by decide, by decide, by decide, by decide, by decide⟩,
   rclone_absorbs_failures_queue_cleared envOk "tmp" id 7 umRclone st0 ""
     5000000 (by decide) (Or.inl rfl) (by decide) (by decide) (by decide)
     (by decide) (by decide)⟩

theorem progressMarkers_upload_tg (env : Env) (fsz dur el : Nat) (doc : Bool) :
    progressMarkers (_upload_to_telegram env fsz dur el doc).1 = [] := by
  cases doc <;> cases htg : env.tgSendOk <;> cases hdel : env.tgDeleteOk <;>
    simp [_upload_to_telegram, htg, hdel, progressMarkers, pmOfEv]

/-- Counterexample to C7 as stated: a fully successful run displays exactly
the markers 0%, 5% and 95% — no 100% marker is ever emitted by the pipeline. -/
theorem no_100_percent_marker :
    progressMarkers
        (execute_smart_merge envOk "tmp" id 7 (some umTgVideo) st0).trace =
      [0, 5, 95] ∧
    (100 : Nat) ∉ progressMarkers
        (execute_smart_merge envOk "tmp" id 7 (some umTgVideo) st0).trace := by
  decide

/-- C7 (amended): on every run that reaches chat-native delivery dispatch,
the successfully displayed progress markers form a strictly increasing
sequence against the single status surface — exactly 0%, 5%, 95% when the 5%
and 95% updates succeed; no 100% marker is ever emitted; a failed 5% or 95%
update, and even a failing delivery send, leaves the displayed markers
unchanged and never aborts the handler (no exception escapes); when the send
and the dismissal both succeed, the run completes and clears the queue. -/
theorem progress_markers_increasing (env : Env) (tf : String)
    (abspath : String → String) (user : Nat) (um : UploadMode) (st : PState)
    (stderr : String) (s : Nat)
    (hpre : passesPreconds (some um) st = true)
    (hcr : env.editInitialOk = true ∨ env.fallbackSendOk = true)
    (hrd : sourcesReadable tf abspath st = true)
    (hff : env.ffmpeg = some (0, stderr))
    (hout : env.ffmpegOutput = some s) (hs : 1024 ≤ s)
    (heng : um.engine = some "telegram") :
    List.Chain' (· < ·) (progressMarkers
      (execute_smart_merge env tf abspath user (some um) st).trace) ∧
    (env.edit5Ok = true → env.edit95Ok = true →
      progressMarkers
        (execute_smart_merge env tf abspath user (some um) st).trace =
        [0, 5, 95]) ∧
    (100 : Nat) ∉ progressMarkers
      (execute_smart_merge env tf abspath user (some um) st).trace ∧
    (execute_smart_merge env tf abspath user (some um) st).raised = false ∧
    (env.tgSendOk = true → env.tgDeleteOk = true →
      (execute_smart_merge env tf abspath user (some um) st).state.queue.videos
        = []) := by
  obtain ⟨h1, h2⟩ := (passesPreconds_some_iff um st).mp hpre
  have key : ∀ tr0 : List Ev, progressMarkers tr0 = [0] →
      progressMarkers (mergeStage1 env tf abspath user um st tr0).trace =
        [0] ++ (if env.edit5Ok then [5] else []) ++
          (if env.edit95Ok then [95] else []) ∧
      (env.tgSendOk = true → env.tgDeleteOk = true →
        (mergeStage1 env tf abspath user um st tr0).state.queue.videos
          = []) := by
    intro tr0 h0
    simp only [mergeStage1, hrd, if_true, mergeStage2, hff]
    rw [if_neg (by simp : ¬ ((0 : Int) ≠ 0))]
    have hsome : fsGet (ffmpegFs env tf (fsSet st.fs (concatPath tf)
        (manifestContent abspath st.queue.videos).length)) (outputPath tf) =
        some s := by
      unfold ffmpegFs
      rw [hout]
      exact fsGet_fsSet_self _ _ _
    simp only [hsome]
    rw [if_neg (not_lt.mpr hs)]
    simp only [mergeDeliver, heng, Option.getD_some, if_true]
    have hupl := progressMarkers_upload_tg env s
      (MergeQueue.get_total_duration st.queue) env.elapsed
      (um.format = some "document")
    split
    · rename_i hraise
      rw [upload_tg_raised_eq] at hraise
      constructor
      · simp only [progressMarkers] at h0 hupl ⊢
        simp only [mergeExceptHandler]
        cases h5 : env.edit5Ok <;> cases h95 : env.edit95Ok <;>
          cases herr : env.errReportOk <;>
          simp [List.filterMap_append, h0, hupl, h5, h95, herr, pmOfEv,
            progressOfMsg]
      · intro ht hd
        rw [ht, hd] at hraise
        simp at hraise
    · constructor
      · rw [finishCleanup_trace]
        simp only [progressMarkers] at h0 hupl ⊢
        cases h5 : env.edit5Ok <;> cases h95 : env.edit95Ok <;>
          simp [List.filterMap_append, h0, hupl, h5, h95, pmOfEv,
            progressOfMsg]
      · intro ht hd
        rfl
  have main : ∀ tr0 : List Ev, progressMarkers tr0 = [0] →
      List.Chain' (· < ·)
        (progressMarkers (mergeStage1 env tf abspath user um st tr0).trace) ∧
      (env.edit5Ok = true → env.edit95Ok = true →
        progressMarkers (mergeStage1 env tf abspath user um st tr0).trace =
          [0, 5, 95]) ∧
      (100 : Nat) ∉
        progressMarkers (mergeStage1 env tf abspath user um st tr0).trace ∧
      (env.tgSendOk = true → env.tgDeleteOk = true →
        (mergeStage1 env tf abspath user um st tr0).state.queue.videos
          = []) := by
    intro tr0 h0
    obtain ⟨hm, hq⟩ := key tr0 h0
    rw [hm]
    refine ⟨?_, ?_, ?_, hq⟩
    · cases h5 : env.edit5Ok <;> cases h95 : env.edit95Ok <;> simp
    · intro h5 h95
      simp [h5, h95]
    · cases h5 : env.edit5Ok <;> cases h95 : env.edit95Ok <;> simp
  simp only [execute_smart_merge, if_neg h1, if_neg h2]
  by_cases heo : env.editInitialOk = true
  · simp only [mergePipeline, heo, if_true]
    have m1 := main [Ev.editQueryMsg true Msg.preparing] rfl
    exact ⟨m1.1, m1.2.1, m1.2.2.1, mergeStage1_raised _ _ _ _ _ _ _,
      m1.2.2.2⟩
  · have hfb : env.fallbackSendOk = true := hcr.resolve_left heo
    simp only [mergePipeline, heo, hfb, if_true, if_false, Bool.false_eq_true]
    have m1 := main [Ev.editQueryMsg false Msg.preparing,
      Ev.sendStatus user true Msg.preparing] rfl
    exact ⟨m1.1, m1.2.1, m1.2.2.1, mergeStage1_raised _ _ _ _ _ _ _,
      m1.2.2.2⟩

/-- Witness for the amended C7: the successful fixture run. -/
theorem progress_markers_increasing_witness :
    (passesPreconds (some umTgVideo) st0 = true ∧
      sourcesReadable "tmp" id st0 = true ∧
      envOk.ffmpeg = some (0, "") ∧ envOk.ffmpegOutput = some 5000000 ∧
      (1024 : Nat) ≤ 5000000 ∧ umTgVideo.engine = some "telegram") ∧
    (List.Chain' (· < ·) (progressMarkers
        (execute_smart_merge envOk "tmp" id 7 (some umTgVideo) st0).trace) ∧
      (envOk.edit5Ok = true → envOk.edit95Ok = true →
        progressMarkers
          (execute_smart_merge envOk "tmp" id 7 (some umTgVideo) st0).trace =
          [0, 5, 95]) ∧
      (100 : Nat) ∉ progressMarkers
        (execute_smart_merge envOk "tmp" id 7 (some umTgVideo) st0).trace ∧
      (execute_smart_merge envOk "tmp" id 7 (some umTgVideo) st0).raised =
        false ∧
      (envOk.tgSendOk = true → envOk.tgDeleteOk = true →
        (execute_smart_merge envOk "tmp" id 7 (some umTgVideo) st0).state.queue.videos = [])) :=
  ⟨⟨by decide, by decide, by decide, by decide, by decide, by decide⟩,
   progress_markers_increasing envOk "tmp" id 7 umTgVideo st0 "" 5000000
     (by decide) (Or.inl rfl) (by decide) (by decide) (by decide) (by decide)
     (by decide)⟩
